import Mathlib

/-!
Verification of the landing-gen backend's data-mapping and content-generation
layer. The definitions below are a shallow embedding of the TypeScript source:
JSON numbers are modelled as `Int` (photo pixel widths, which the code feeds
into `Math.min` and truthiness tests, as `Nat`); a value that may be `undefined`
or `null` is an `Option` (the code reads every such field through `??`/`||`,
which treat the two alike), except the boolean feature flags of the nested
option groups, whose `null`-vs-`undefined` distinction matters and is kept by
the three-valued `NVal`; a fallible computation is an `Except String`.
-/

set_option autoImplicit false

namespace LandingGen

/-- Three-valued model of a TS field that can be `undefined`, `null`, or a value. -/
inductive NVal (α : Type) where
  | undef
  | null
  | val (a : α)
deriving DecidableEq, Repr

/-- Model of `x ?? undefined`: collapses both `undefined` and `null` to `none`. -/
def NVal.coalesceU {α : Type} : NVal α → Option α
  | .val a => some a
  | _ => none

/-- Model of `x || d` on an optional string: the empty string is falsy. -/
def strOr (x : Option String) (d : String) : String :=
  match x with
  | some s => if s = "" then d else s
  | none => d

/-- Model of `x || d` on an optional number: `0` is falsy. -/
def natOr (x : Option Nat) (d : Nat) : Nat :=
  match x with
  | some n => if n = 0 then d else n
  | none => d

/-- Truthiness of an optional string (`undefined`, `null` and `""` are falsy). -/
def strTruthy : Option String → Bool
  | some s => s ≠ ""
  | none => false

/-- Truthiness of an optional number (`undefined`, `null` and `0` are falsy). -/
def natTruthy : Option Nat → Bool
  | some n => n ≠ 0
  | none => false

/-- Split a character list on a separator character; like JS
`String.prototype.split` with a one-character separator, the empty input
yields one empty segment. -/
def splitOnChar (sep : Char) : List Char → List (List Char)
  | [] => [[]]
  | c :: cs =>
    if c = sep then [] :: splitOnChar sep cs
    else
      match splitOnChar sep cs with
      | r :: rs => (c :: r) :: rs
      | [] => [[c]]

/-- Model of JS `s.split(sep)` for a one-character separator. -/
def jsSplit (s : String) (sep : Char) : List String :=
  (splitOnChar sep s.data).map String.mk

/-- Strip leading and trailing whitespace from a character list. -/
def trimChars (cs : List Char) : List Char :=
  ((cs.dropWhile Char.isWhitespace).reverse.dropWhile Char.isWhitespace).reverse

/-- Model of JS `s.trim()` (over the ASCII whitespace the data at hand can
contain). -/
def jsTrim (s : String) : String :=
  String.mk (trimChars s.data)

/-! ## Photo-URL services (`googlemaps.service`, both provider generations) -/

/-- Legacy Google Maps service; carries the `GOOGLE_MAPS_API_KEY` env config it
interpolates into photo URLs. -/
structure GoogleMapsService where
  GOOGLE_MAPS_API_KEY : String
deriving DecidableEq, Repr

/-- Legacy `getPhotoUrl(photoReference, maxWidth = 800)`. -/
def GoogleMapsService.getPhotoUrl (svc : GoogleMapsService)
    (photoReference : String) (maxWidth : Nat := 800) : String :=
  s!"https://maps.googleapis.com/maps/api/place/photo?maxwidth={maxWidth}&photoreference={photoReference}&key={svc.GOOGLE_MAPS_API_KEY}"

/-- New-API Google Maps service (authentication is held by the SDK client and
does not show up in the constructed URL). -/
structure GoogleMapsServiceNew where
  deriving DecidableEq, Repr

/-- The `photoName.split("/").pop()` step of the new `getPhotoUrl` (an empty
pop result models the falsy reference the service rejects). -/
def extractPhotoReference (photoName : String) : String :=
  ((jsSplit photoName '/').getLast?).getD ""

/-- New-API `getPhotoUrl(photoName, maxWidth = 400)`: extracts the last
`/`-segment of the photo name and rejects an empty name or an empty extracted
reference. -/
def GoogleMapsServiceNew.getPhotoUrl (_svc : GoogleMapsServiceNew)
    (photoName : String) (maxWidth : Nat := 400) : Except String String :=
  if photoName = "" then .error "Photo name is required"
  else if extractPhotoReference photoName = "" then
    .error "Invalid photo name format"
  else .ok s!"https://maps.googleapis.com/maps/api/place/photo?maxwidth={maxWidth}&photo_reference={extractPhotoReference photoName}"

/-! ## Legacy raw place record (`GooglePlaceDetails`, old Places API shape)

Runtime JSON may omit any field, so every field the mapper defends with
`||` / `?.` / `Boolean(...)` is an `Option`. -/

structure LatLng where
  lat : Int
  lng : Int
deriving DecidableEq, Repr

structure GPViewport where
  northeast : LatLng
  southwest : LatLng
deriving DecidableEq, Repr

structure GPGeometryIn where
  location : Option LatLng
  viewport : Option GPViewport
deriving DecidableEq, Repr

structure AddressComponent where
  long_name : String
  short_name : String
  types : List String
deriving DecidableEq, Repr

structure GPPhotoIn where
  photo_reference : Option String
  height : Option Nat
  width : Option Nat
deriving DecidableEq, Repr

structure GPPlusCode where
  global_code : String
  compound_code : Option String
deriving DecidableEq, Repr

structure GPTimeIn where
  day : Nat
  time : Option String
deriving DecidableEq, Repr

structure GPPeriodIn where
  open_ : GPTimeIn
  close : Option GPTimeIn
deriving DecidableEq, Repr

structure GPOpeningHoursIn where
  open_now : Option Bool
  periods : Option (List GPPeriodIn)
  weekday_text : Option (List String)
deriving DecidableEq, Repr

/-- Legacy review; `time` arrives either as a number or a numeric-looking string. -/
structure GPReviewIn where
  author_name : String
  rating : Int
  relative_time_description : String
  time : Sum Int String
  text : String
deriving DecidableEq, Repr

structure GooglePlaceDetails where
  place_id : Option String
  name : Option String
  formatted_address : Option String
  address_components : Option (List AddressComponent)
  adr_address : Option String
  business_status : Option String
  permanently_closed : Option Bool
  geometry : Option GPGeometryIn
  icon : Option String
  icon_background_color : Option String
  icon_mask_base_uri : Option String
  photos : Option (List GPPhotoIn)
  plus_code : Option GPPlusCode
  types : Option (List String)
  url : Option String
  utc_offset : Option Int
  vicinity : Option String
  formatted_phone_number : Option String
  international_phone_number : Option String
  website : Option String
  opening_hours : Option GPOpeningHoursIn
  price_level : Option Int
  rating : Option Int
  user_ratings_total : Option Int
  reviews : Option (List GPReviewIn)
  wheelchair_accessible_entrance : Option Bool
deriving DecidableEq, Repr

/-! ## Legacy mapped asset (`Partial<IAsset>` as assembled by `AssetMapper.toAsset`) -/

structure IPlacePhoto where
  photoReference : String
  photoUri : Option String
  height : Nat
  width : Nat
deriving DecidableEq, Repr

structure GeometryOut where
  location : LatLng
  viewport : Option GPViewport
deriving DecidableEq, Repr

structure TimeOut where
  day : Nat
  time : String
deriving DecidableEq, Repr

structure PeriodOut where
  open_ : TimeOut
  close : Option TimeOut
deriving DecidableEq, Repr

structure OpeningHoursOut where
  open_now : Option Bool
  periods : Option (List PeriodOut)
  weekday_text : Option (List String)
deriving DecidableEq, Repr

/-- Mapped review; `time` is `parseInt`ed when it arrives as a string
(`none` models the `NaN` result of a non-numeric string). -/
structure ReviewOut where
  author_name : String
  rating : Int
  relative_time_description : String
  time : Option Int
  text : String
deriving DecidableEq, Repr

structure AssetLegacy where
  placeId : Option String
  name : String
  formattedAddress : String
  addressComponents : Option (List AddressComponent)
  adrAddress : Option String
  businessStatus : Option String
  permanentlyClosed : Option Bool
  geometry : GeometryOut
  icon : Option String
  iconBackgroundColor : Option String
  iconMaskBaseUri : Option String
  photos : List IPlacePhoto
  plusCode : Option GPPlusCode
  types : List String
  url : Option String
  utcOffset : Option Int
  vicinity : Option String
  formattedPhoneNumber : Option String
  internationalPhoneNumber : Option String
  website : Option String
  openingHours : Option OpeningHoursOut
  priceLevel : Option Int
  rating : Option Int
  userRatingsTotal : Option Int
  reviews : Option (List ReviewOut)
  wheelchairAccessibleEntrance : Bool
  aiDescription : String
  aiTags : List String
deriving DecidableEq, Repr

/-- One photo entry of `toAsset`: reference/height/width defaulted with `||`,
and a `photoUri` attached only when both the service and a truthy
`photo_reference` are present, with the request width capped by
`Math.min(photo.width || 800, 800)`. -/
def legacyPhotoOut (googleMapsService : Option GoogleMapsService)
    (photo : GPPhotoIn) : IPlacePhoto :=
  let photoData : IPlacePhoto :=
    { photoReference := strOr photo.photo_reference ""
      photoUri := none
      height := natOr photo.height 0
      width := natOr photo.width 0 }
  match googleMapsService, photo.photo_reference with
  | some svc, some r =>
      if r = "" then photoData
      else { photoData with
              photoUri := some (svc.getPhotoUrl r (Nat.min (natOr photo.width 800) 800)) }
  | _, _ => photoData

namespace AssetMapper

/-- Embedding of `AssetMapper.toAsset` (legacy shape): throws when
`place.geometry?.location` is missing, otherwise transcribes every field with
the defaulting of the source. -/
def toAsset (place : GooglePlaceDetails) (aiDescription : String)
    (aiTags : List String) (googleMapsService : Option GoogleMapsService) :
    Except String AssetLegacy :=
  match place.geometry with
  | none => .error "Place geometry or location is missing"
  | some g =>
    match g.location with
    | none => .error "Place geometry or location is missing"
    | some loc =>
      .ok
        { placeId := place.place_id
          name := strOr place.name ""
          formattedAddress := strOr place.formatted_address ""
          addressComponents := place.address_components.map (fun cs =>
            cs.map (fun c =>
              { long_name := c.long_name
                short_name := c.short_name
                types := c.types }))
          adrAddress := place.adr_address
          businessStatus := place.business_status
          permanentlyClosed := place.permanently_closed
          geometry :=
            { location := { lat := loc.lat, lng := loc.lng }
              viewport := g.viewport.map (fun v =>
                { northeast := { lat := v.northeast.lat, lng := v.northeast.lng }
                  southwest := { lat := v.southwest.lat, lng := v.southwest.lng } }) }
          icon := place.icon
          iconBackgroundColor := place.icon_background_color
          iconMaskBaseUri := place.icon_mask_base_uri
          photos :=
            match place.photos with
            | some ps => ps.map (legacyPhotoOut googleMapsService)
            | none => []
          plusCode := place.plus_code.map (fun pc =>
            { global_code := pc.global_code, compound_code := pc.compound_code })
          types := place.types.getD []
          url := place.url
          utcOffset := place.utc_offset
          vicinity := place.vicinity
          formattedPhoneNumber := place.formatted_phone_number
          internationalPhoneNumber := place.international_phone_number
          website := place.website
          openingHours := place.opening_hours.map (fun oh =>
            { open_now := oh.open_now
              periods := oh.periods.map (fun ps =>
                ps.map (fun per =>
                  { open_ := { day := per.open_.day, time := strOr per.open_.time "" }
                    close := per.close.map (fun c =>
                      { day := c.day, time := strOr c.time "" }) }))
              weekday_text := oh.weekday_text })
          priceLevel := place.price_level
          rating := place.rating
          userRatingsTotal := place.user_ratings_total
          reviews := place.reviews.map (fun rs =>
            rs.map (fun r =>
              { author_name := r.author_name
                rating := r.rating
                relative_time_description := r.relative_time_description
                time :=
                  match r.time with
                  | .inl n => some n
                  | .inr s => s.toInt?
                text := r.text }))
          wheelchairAccessibleEntrance :=
            place.wheelchair_accessible_entrance.getD false
          aiDescription := aiDescription
          aiTags := aiTags }

end AssetMapper

/-! ## New-API raw place record (`GooglePlace` of the new Places SDK)

Fields (all nullable at runtime) that `mapGooglePlaceToAsset` reads. The
option-group boolean flags keep the three-way `undefined`/`null`/value
distinction (`NVal`), since the mapper's `?? undefined` collapses it. -/

structure DisplayNameIn where
  text : Option String
  languageCode : Option String
deriving DecidableEq, Repr

structure LocationIn where
  latitude : Option Int
  longitude : Option Int
deriving DecidableEq, Repr

structure AuthorAttributionIn where
  displayName : Option String
  uri : Option String
  photoUri : Option String
deriving DecidableEq, Repr

structure GPNewPhotoIn where
  name : Option String
  widthPx : Option Nat
  heightPx : Option Nat
  authorAttributions : Option (List AuthorAttributionIn)
deriving DecidableEq, Repr

structure ParkingOptionsIn where
  freeParkingLot : NVal Bool
  paidParkingLot : NVal Bool
  freeStreetParking : NVal Bool
  valetParking : NVal Bool
  freeGarageParking : NVal Bool
  paidGarageParking : NVal Bool
deriving DecidableEq, Repr

structure PaymentOptionsIn where
  acceptsCreditCards : NVal Bool
  acceptsDebitCards : NVal Bool
  acceptsCashOnly : NVal Bool
  acceptsNfc : NVal Bool
deriving DecidableEq, Repr

structure AccessibilityOptionsIn where
  wheelchairAccessibleParking : NVal Bool
  wheelchairAccessibleEntrance : NVal Bool
  wheelchairAccessibleRestroom : NVal Bool
  wheelchairAccessibleSeating : NVal Bool
deriving DecidableEq, Repr

structure HourPointIn where
  day : Option Nat
  hour : Option Nat
  minute : Option Nat
deriving DecidableEq, Repr

structure NewPeriodIn where
  open_ : Option HourPointIn
  close : Option HourPointIn
deriving DecidableEq, Repr

structure RegularOpeningHoursIn where
  periods : Option (List NewPeriodIn)
  weekdayDescriptions : Option (List String)
deriving DecidableEq, Repr

structure TextLangIn where
  text : Option String
  languageCode : Option String
deriving DecidableEq, Repr

structure NewReviewIn where
  name : Option String
  relativePublishTimeDescription : Option String
  rating : Option Int
  text : Option TextLangIn
  authorAttribution : Option AuthorAttributionIn
deriving DecidableEq, Repr

structure GooglePlaceNew where
  id : Option String
  displayName : Option DisplayNameIn
  formattedAddress : Option String
  shortFormattedAddress : Option String
  location : Option LocationIn
  rating : Option Int
  userRatingCount : Option Nat
  googleMapsUri : Option String
  websiteUri : Option String
  regularOpeningHours : Option RegularOpeningHoursIn
  types : Option (List String)
  photos : Option (List GPNewPhotoIn)
  parkingOptions : Option ParkingOptionsIn
  paymentOptions : Option PaymentOptionsIn
  accessibilityOptions : Option AccessibilityOptionsIn
  editorialSummary : Option TextLangIn
  priceLevel : Option String
  reviews : Option (List NewReviewIn)
  allowsDogs : Option Bool
deriving DecidableEq, Repr

/-! ## New-API mapped asset (`Partial<IAsset>` as assembled by
`AssetMapper.mapGooglePlaceToAsset`) -/

structure TextLangOut where
  text : String
  languageCode : String
deriving DecidableEq, Repr

structure LocationOut where
  latitude : Int
  longitude : Int
deriving DecidableEq, Repr

structure AuthorAttributionOut where
  displayName : String
  uri : String
  photoUri : String
deriving DecidableEq, Repr

structure AssetPhotoNew where
  name : String
  widthPx : Nat
  heightPx : Nat
  authorAttributions : List AuthorAttributionOut
  photoUrl : Option String
deriving DecidableEq, Repr

structure ParkingOptionsOut where
  freeParkingLot : Option Bool
  paidParkingLot : Option Bool
  freeStreetParking : Option Bool
  valetParking : Option Bool
  freeGarageParking : Option Bool
  paidGarageParking : Option Bool
deriving DecidableEq, Repr

structure PaymentOptionsOut where
  acceptsCreditCards : Option Bool
  acceptsDebitCards : Option Bool
  acceptsCashOnly : Option Bool
  acceptsNfc : Option Bool
deriving DecidableEq, Repr

structure AccessibilityOptionsOut where
  wheelchairAccessibleParking : Option Bool
  wheelchairAccessibleEntrance : Option Bool
  wheelchairAccessibleRestroom : Option Bool
  wheelchairAccessibleSeating : Option Bool
deriving DecidableEq, Repr

structure HourPointOut where
  day : Nat
  hour : Nat
  minute : Nat
deriving DecidableEq, Repr

structure NewPeriodOut where
  open_ : HourPointOut
  close : HourPointOut
deriving DecidableEq, Repr

structure RegularOpeningHoursOut where
  periods : List NewPeriodOut
  weekdayDescriptions : List String
deriving DecidableEq, Repr

structure NewReviewOut where
  name : String
  relativePublishTimeDescription : String
  rating : Int
  text : TextLangOut
  authorAttribution : AuthorAttributionOut
deriving DecidableEq, Repr

structure AssetNew where
  externalId : String
  displayName : Option TextLangOut
  formattedAddress : Option String
  shortFormattedAddress : Option String
  location : LocationOut
  rating : Option Int
  userRatingCount : Option Nat
  googleMapsUri : Option String
  websiteUri : Option String
  regularOpeningHours : Option RegularOpeningHoursOut
  primaryType : Option String
  types : Option (List String)
  photos : Option (List AssetPhotoNew)
  parkingOptions : Option ParkingOptionsOut
  paymentOptions : Option PaymentOptionsOut
  accessibilityOptions : Option AccessibilityOptionsOut
  editorialSummary : Option TextLangOut
  priceLevel : Option String
  reviews : Option (List NewReviewOut)
  allowsDogs : Option Bool
  aiDescription : Option String
  aiTags : Option (List String)
  aiLandingPage : Option String
deriving DecidableEq, Repr

/-- One step of the new mapper's photo processing: photos whose `name` or
`widthPx` is falsy become `undefined` (`ok none`); otherwise a display URL is
resolved (asynchronously, so its failure rejects the whole mapping) only when
the service is present, with the width capped by `Math.min(photo.widthPx, 800)`. -/
def processPhoto (googleMapsService : Option GoogleMapsServiceNew)
    (photo : GPNewPhotoIn) : Except String (Option AssetPhotoNew) :=
  if strTruthy photo.name = false ∨ natTruthy photo.widthPx = false then .ok none
  else
    let nm := photo.name.getD ""
    let base : AssetPhotoNew :=
      { name := nm
        widthPx := photo.widthPx.getD 0
        heightPx := photo.heightPx.getD 0
        authorAttributions := (photo.authorAttributions.getD []).map (fun attr =>
          { displayName := attr.displayName.getD ""
            uri := attr.uri.getD ""
            photoUri := attr.photoUri.getD "" })
        photoUrl := none }
    match googleMapsService with
    | some svc =>
        match svc.getPhotoUrl nm (Nat.min (photo.widthPx.getD 0) 800) with
        | .ok u => .ok (some { base with photoUrl := some u })
        | .error e => .error e
    | none => .ok (some base)

/-- Model of `Promise.all` over the per-photo computations: collects the
results in input order, the first rejection rejecting the whole batch. -/
def allPhotos (googleMapsService : Option GoogleMapsServiceNew) :
    List GPNewPhotoIn → Except String (List (Option AssetPhotoNew))
  | [] => .ok []
  | p :: ps =>
    match processPhoto googleMapsService p, allPhotos googleMapsService ps with
    | .error e, _ => .error e
    | .ok _, .error e => .error e
    | .ok r, .ok rs => .ok (r :: rs)

/-- The new mapper's photo pipeline: `photos?.map(async ...)` joined by
`Promise.all`, then the `undefined` entries are filtered out, preserving
input order. -/
def mapPhotos (googleMapsService : Option GoogleMapsServiceNew)
    (photos : Option (List GPNewPhotoIn)) :
    Except String (Option (List AssetPhotoNew)) :=
  match photos with
  | none => .ok none
  | some ps =>
    match allPhotos googleMapsService ps with
    | .error e => .error e
    | .ok rs => .ok (some (rs.filterMap id))

/-- Model of `x?.day ?? 0` / `x?.hour ?? 0` / `x?.minute ?? 0` on an optional
opening-hours endpoint. -/
def hourPointOut (x : Option HourPointIn) : HourPointOut :=
  { day := (x.bind (·.day)).getD 0
    hour := (x.bind (·.hour)).getD 0
    minute := (x.bind (·.minute)).getD 0 }

namespace AssetMapper

/-- Embedding of `AssetMapper.mapGooglePlaceToAsset` (new shape): rejects when
`place.location` is falsy, resolves photos (whose URL resolution may itself
reject), and otherwise transcribes each field with the source's `??`
defaulting; in particular `priceLevel` is forwarded whenever it is truthy and
different from the `"PRICE_LEVEL_UNSPECIFIED"` sentinel (the five-value
restriction in the source is a compile-time cast only). -/
def mapGooglePlaceToAsset (place : GooglePlaceNew) (aiDescription : Option String)
    (aiTags : Option (List String)) (landingPage : Option String)
    (googleMapsService : Option GoogleMapsServiceNew) : Except String AssetNew :=
  match place.location with
  | none => .error "Place location is missing"
  | some loc =>
    match mapPhotos googleMapsService place.photos with
    | .error e => .error e
    | .ok photos =>
      .ok
        { externalId := place.id.getD ""
          displayName := place.displayName.map (fun d =>
            { text := d.text.getD "", languageCode := d.languageCode.getD "en" })
          formattedAddress := place.formattedAddress
          shortFormattedAddress := place.shortFormattedAddress
          location :=
            { latitude := loc.latitude.getD 0
              longitude := loc.longitude.getD 0 }
          rating := place.rating
          userRatingCount := place.userRatingCount
          googleMapsUri := place.googleMapsUri
          websiteUri := place.websiteUri
          regularOpeningHours := place.regularOpeningHours.map (fun oh =>
            { periods :=
                match oh.periods with
                | some ps => ps.map (fun per =>
                    { open_ := hourPointOut per.open_
                      close := hourPointOut per.close })
                | none => []
              weekdayDescriptions := oh.weekdayDescriptions.getD [] })
          primaryType := place.types.bind List.head?
          types := place.types
          photos := photos
          parkingOptions := place.parkingOptions.map (fun g =>
            { freeParkingLot := g.freeParkingLot.coalesceU
              paidParkingLot := g.paidParkingLot.coalesceU
              freeStreetParking := g.freeStreetParking.coalesceU
              valetParking := g.valetParking.coalesceU
              freeGarageParking := g.freeGarageParking.coalesceU
              paidGarageParking := g.paidGarageParking.coalesceU })
          paymentOptions := place.paymentOptions.map (fun g =>
            { acceptsCreditCards := g.acceptsCreditCards.coalesceU
              acceptsDebitCards := g.acceptsDebitCards.coalesceU
              acceptsCashOnly := g.acceptsCashOnly.coalesceU
              acceptsNfc := g.acceptsNfc.coalesceU })
          accessibilityOptions := place.accessibilityOptions.map (fun g =>
            { wheelchairAccessibleParking := g.wheelchairAccessibleParking.coalesceU
              wheelchairAccessibleEntrance := g.wheelchairAccessibleEntrance.coalesceU
              wheelchairAccessibleRestroom := g.wheelchairAccessibleRestroom.coalesceU
              wheelchairAccessibleSeating := g.wheelchairAccessibleSeating.coalesceU })
          editorialSummary := place.editorialSummary.map (fun e =>
            { text := e.text.getD "", languageCode := e.languageCode.getD "en" })
          priceLevel :=
            match place.priceLevel with
            | some s =>
                if s ≠ "" ∧ s ≠ "PRICE_LEVEL_UNSPECIFIED" then some s else none
            | none => none
          reviews := place.reviews.map (fun rs =>
            rs.map (fun r =>
              { name := r.name.getD ""
                relativePublishTimeDescription :=
                  r.relativePublishTimeDescription.getD ""
                rating := r.rating.getD 0
                text :=
                  { text := (r.text.bind (·.text)).getD ""
                    languageCode := (r.text.bind (·.languageCode)).getD "en" }
                authorAttribution :=
                  { displayName := (r.authorAttribution.bind (·.displayName)).getD ""
                    uri := (r.authorAttribution.bind (·.uri)).getD ""
                    photoUri := (r.authorAttribution.bind (·.photoUri)).getD "" } }))
          allowsDogs := place.allowsDogs
          aiDescription := aiDescription
          aiTags := aiTags
          aiLandingPage := landingPage }

end AssetMapper

/-! ## OpenAI service (`openai.service`)

The chat-completion client is an external collaborator; each service method is
embedded as a function of the client's outcome, an
`Except String (Option String)`: `error` models a rejected API call,
`ok content` a response whose `choices[0]?.message?.content` is `content`. -/

namespace OpenAIService

/-- Model of `response.choices[0]?.message?.content?.trim() || ""`. -/
def responseText (content : Option String) : String :=
  strOr (content.map jsTrim) ""

/-- Embedding of `OpenAIService.generateDescription` /
`generateAssetDescription`: the trimmed response text, an API error rethrown. -/
def generateDescription (response : Except String (Option String)) :
    Except String String :=
  match response with
  | .error e => .error e
  | .ok content => .ok (responseText content)

/-- Embedding of `OpenAIService.generateTags` (both service generations share
this body): the trimmed response is split on `","`, each segment trimmed, and
falsy (empty) segments dropped by `.filter(Boolean)`; an API error is rethrown. -/
def generateTags (response : Except String (Option String)) :
    Except String (List String) :=
  match response with
  | .error e => .error e
  | .ok content =>
    .ok (((jsSplit (responseText content) ',').map jsTrim).filter (· ≠ ""))

/-- The five category strings `classifyAssetCategory` validates against. -/
def validCategories : List String :=
  ["Cultural", "Entertainment", "Commerce", "Transportation", "PublicServices"]

/-- The `Category` union type of the asset model: the five valid categories
plus the `"Default"` fallback. -/
def categoryValues : List String :=
  ["Cultural", "Entertainment", "Commerce", "Transportation", "PublicServices",
   "Default"]

/-- Embedding of `OpenAIService.classifyAssetCategory`: the trimmed response
text is returned when it is one of the five `validCategories`; any other text
falls back to `"Default"`, and a thrown classification error is caught and also
yields `"Default"`. -/
def classifyAssetCategory (response : Except String (Option String)) : String :=
  match response with
  | .error _ => "Default"
  | .ok content =>
    let category := responseText content
    if validCategories.contains category then category else "Default"

end OpenAIService

/-! ## Prompt construction (`PromptManager`) -/

/-! The enum string values of `RequestType`. -/

namespace RequestType

def DESCRIPTION : String := "description"

def TAGS : String := "tags"

def LANDING_PAGE : String := "landing_page"

end RequestType

namespace PromptManager

/-- The initial `REQUEST_CONFIGS` table, request-type value to its
instruction text. -/
def REQUEST_CONFIGS : List (String × String) :=
  [(RequestType.DESCRIPTION,
    "Please create a compelling and unique description for this place. Focus on its distinctive features, atmosphere, and what makes it special. Include any notable aspects that would interest potential visitors."),
   (RequestType.TAGS,
    "Please analyze this place and generate relevant, witty tags that capture its essence. Consider the business type, atmosphere, offerings, and unique characteristics. Include both practical and creative tags."),
   (RequestType.LANDING_PAGE,
    "Please create a modern, responsive HTML landing page for this place. The design should be visually appealing, mobile-friendly, and effectively showcase the location\x27s key features. Include appropriate styling and a clear call-to-action.")]

/-- Embedding of `PromptManager.addRequestType`: record assignment
`REQUEST_CONFIGS[newType] = {type, details}` replaces or adds the entry. -/
def addRequestType (configs : List (String × String)) (type_ details : String) :
    List (String × String) :=
  (type_, details) :: configs.filter (fun p => p.1 ≠ type_)

/-- Lookup `REQUEST_CONFIGS[requestType]`. -/
def lookupConfig (configs : List (String × String)) (requestType : String) :
    Option String :=
  (configs.find? (fun p => p.1 = requestType)).map (·.2)

/-- The fixed persona/style system prompt (`gplace-system.prompt`). -/
def systemMessage : String :=
  "You are PlaceDescriber, an expert UX writer and web designer specializing in location-based content. Your task is to analyze Google Places data and create compelling, informative content that engages users.

When provided with Google Place data, you will:
1. Create a concise yet comprehensive summary of the place that highlights its key features, atmosphere, and unique selling points
2. When requested, generate witty, memorable tags that capture the essence of the location with humor and personality
3. When requested, design a responsive HTML landing page that showcases the location effectively

As a UX expert, you understand that:
- First impressions matter - your content should immediately capture user interest
- Information hierarchy is crucial - the most important details should be most prominent
- Visual design should complement and enhance the written content
- Mobile responsiveness is essential for all web content
- Users scan rather than read, so content should be easily scannable
- Call-to-action elements should be clear and compelling

When generating a landing page:
- Use semantic HTML5 elements for proper structure
- Include responsive design principles with mobile-first approach
- Create an aesthetic that matches the place\x27s category and atmosphere
- Highlight photos, reviews, and key information from the provided data
- Include appropriate call-to-action elements based on the business type
- Ensure the design is clean, modern, and visually appealing
- Use appropriate color psychology based on the business category
- Create a layout that guides the user\x27s eye through the most important information

The user will provide a GooglePlaceDetails object with some or all of the fields described in the TypeScript interface. Use whatever data is available to create the best possible content. If critical information is missing, focus on what you do have and create the most compelling content possible with the available data.

When no specific instruction is given, default to providing a summary and tags. Only create HTML when explicitly requested. Your goal is to create content that makes the location seem appealing and worth visiting while maintaining accuracy to the provided data."

structure PromptResponse where
  systemMessage : String
  userMessage : String
deriving DecidableEq, Repr

/-- The context handed to the compiled Handlebars template: the asset spread
together with the selected request type and its instruction text. -/
structure PromptContext (α : Type) where
  asset : α
  requestType : String
  requestDetails : String

/-- Embedding of `PromptManager.generatePrompt`. The compiled Handlebars
template (a third-party library) is taken as a parameter `template`; the
function throws `"Unsupported request type"` exactly when the request type has
no entry in the configuration table, and otherwise pairs the constant
`systemMessage` with the rendered user message. -/
def generatePrompt {α : Type} (template : PromptContext α → String)
    (configs : List (String × String)) (asset : α) (requestType : String) :
    Except String PromptResponse :=
  match lookupConfig configs requestType with
  | none => .error ("Unsupported request type: " ++ requestType)
  | some details =>
    .ok
      { systemMessage := systemMessage
        userMessage := template ⟨asset, requestType, details⟩ }

end PromptManager

/-! ## Legacy registration flow (`place.routes.ts` + `PlaceDAO` + legacy
`googlemaps.service.getEntity`)

The document store is an external collaborator modelled as an explicit state:
a list of persisted records plus a fresh-id counter. Outbound calls (provider
fetch, the two generation calls) are oracles passed in as `Except` outcomes. -/

structure PhotoBasic where
  photoReference : String
  height : Nat
  width : Nat
deriving DecidableEq, Repr

/-- The `Partial<IPlace>` that legacy `getEntity` assembles and the route
persists. -/
structure IPlaceData where
  placeId : String
  name : String
  formattedAddress : String
  location : LatLng
  photos : List PhotoBasic
  types : List String
  rating : Option Int
  userRatingsTotal : Option Int
deriving DecidableEq, Repr

/-- Embedding of the legacy `GoogleMapsService.getEntity`: throws when the raw
response lacks `geometry?.location`, otherwise transcribes the fetched fields,
falling back to the requested `placeId` when the response omits `place_id`. -/
def GoogleMapsService.getEntity (placeId : String)
    (response : Except String GooglePlaceDetails) : Except String IPlaceData :=
  match response with
  | .error e => .error e
  | .ok place =>
    match place.geometry with
    | none => .error "Place geometry or location is missing"
    | some g =>
      match g.location with
      | none => .error "Place geometry or location is missing"
      | some loc =>
        .ok
          { placeId := strOr place.place_id placeId
            name := strOr place.name ""
            formattedAddress := strOr place.formatted_address ""
            location := { lat := loc.lat, lng := loc.lng }
            photos :=
              match place.photos with
              | some ps => ps.map (fun photo =>
                  { photoReference := strOr photo.photo_reference ""
                    height := natOr photo.height 0
                    width := natOr photo.width 0 })
              | none => []
            types := place.types.getD []
            rating := place.rating
            userRatingsTotal := place.user_ratings_total }

/-- A persisted place document (AI fields start absent). -/
structure PlaceRec where
  _id : Nat
  data : IPlaceData
  aiDescription : Option String
  aiTags : Option (List String)
deriving DecidableEq, Repr

/-- The places collection plus the store's fresh-id counter. -/
structure PlaceDb where
  places : List PlaceRec
  nextId : Nat
deriving DecidableEq, Repr

def PlaceDb.empty : PlaceDb := { places := [], nextId := 0 }

/-- `PlaceDAO.findByPlaceId`: `findOne({placeId})`. -/
def findByPlaceId (db : PlaceDb) (placeId : String) : Option PlaceRec :=
  db.places.find? (fun r => r.data.placeId = placeId)

/-- `PlaceDAO.createPlace`: inserts a fresh document (AI fields unset). -/
def createPlace (db : PlaceDb) (data : IPlaceData) : PlaceRec × PlaceDb :=
  let rec_ : PlaceRec :=
    { _id := db.nextId, data := data, aiDescription := none, aiTags := none }
  (rec_, { places := db.places ++ [rec_], nextId := db.nextId + 1 })

/-- `PlaceDAO.update(_id, {aiDescription, aiTags})`:
`findByIdAndUpdate(id, {$set: ...}, {new: true})`. -/
def updatePlaceAi (db : PlaceDb) (id : Nat) (description : String)
    (tags : List String) : Option PlaceRec × PlaceDb :=
  let places := db.places.map (fun r =>
    if r._id = id then
      { r with aiDescription := some description, aiTags := some tags }
    else r)
  let db' : PlaceDb := { db with places := places }
  (places.find? (fun r => r._id = id), db')

/-- HTTP outcome of `POST /api/places/register`. -/
inductive PlaceRegisterResult where
  | created (place : PlaceRec)
  | conflict (existing : PlaceRec)
  | serverError
deriving DecidableEq, Repr

/-- Embedding of the `POST /api/places/register` handler: existence check
(strict 409 with the existing record), provider fetch, create, then the AI
try/catch — a failed generation call is non-critical and still answers 201
with the AI-less document. -/
def registerPlace (db : PlaceDb) (placeId : String)
    (providerResponse : Except String GooglePlaceDetails)
    (descResponse tagsResponse : Except String (Option String)) :
    PlaceRegisterResult × PlaceDb :=
  match findByPlaceId db placeId with
  | some existing => (.conflict existing, db)
  | none =>
    match GoogleMapsService.getEntity placeId providerResponse with
    | .error _ => (.serverError, db)
    | .ok placeDetails =>
      let create := createPlace db placeDetails
      match OpenAIService.generateDescription descResponse,
            OpenAIService.generateTags tagsResponse with
      | .ok description, .ok tags =>
        let update := updatePlaceAi create.2 create.1._id description tags
        (.created (update.1.getD create.1), update.2)
      | _, _ => (.created create.1, create.2)

/-! ## New registration flow (`gplace.routes.ts` + `AssetDAO` +
`AssetAiContentService`) -/

/-- A persisted asset document: the mapped `AssetNew` payload plus the
AI-assigned category. -/
structure GAssetRec where
  _id : Nat
  asset : AssetNew
  category : Option String
deriving DecidableEq, Repr

/-- The assets collection plus the store's fresh-id counter. -/
structure AssetDb where
  assets : List GAssetRec
  nextId : Nat
deriving DecidableEq, Repr

def AssetDb.empty : AssetDb := { assets := [], nextId := 0 }

/-- Modelled from the spec: `AssetDAO.findByExternalId` is called by the
routes but its body is not among the sources (the shipped DAO still carries
the pre-rename `findByPlaceId` with a TODO noting the rename); per the spec
the persistence layer is "keyed by an external identifier", so the lookup is
`findOne` on the unique `externalId`. -/
def findByExternalId (db : AssetDb) (placeId : String) : Option GAssetRec :=
  db.assets.find? (fun r => r.asset.externalId = placeId)

/-- `AssetDAO.createAsset`: inserts a fresh document. -/
def createAsset (db : AssetDb) (asset : AssetNew) : GAssetRec × AssetDb :=
  let rec_ : GAssetRec := { _id := db.nextId, asset := asset, category := none }
  (rec_, { assets := db.assets ++ [rec_], nextId := db.nextId + 1 })

/-- `AssetDAO.update(_id, {aiDescription, category})`. -/
def updateAssetAi (db : AssetDb) (id : Nat) (description category : String) :
    Option GAssetRec × AssetDb :=
  let assets := db.assets.map (fun r =>
    if r._id = id then
      { r with
        asset := { r.asset with aiDescription := some description }
        category := some category }
    else r)
  let db' : AssetDb := { db with assets := assets }
  (assets.find? (fun r => r._id = id), db')

/-- HTTP outcome of `POST /api/gplaces/register` (`ok` carries the JSON body,
which is the re-read document and hence nullable). -/
inductive GPlaceRegisterResult where
  | ok (asset : Option GAssetRec)
  | notFound
  | serverError
deriving DecidableEq, Repr

/-- Embedding of the `POST /api/gplaces/register` handler: idempotent
existence check (200 with the stored record), provider fetch, mapping, create,
then `Promise.all` of summary generation and category classification — a
summary failure rejects into the catch-all 500 (with the asset already
persisted), while classification never throws (it falls back to `"Default"`). -/
def registerGPlace (db : AssetDb) (placeId : String)
    (providerResponse : Except String (Option GooglePlaceNew))
    (summaryResponse categoryResponse : Except String (Option String)) :
    GPlaceRegisterResult × AssetDb :=
  match findByExternalId db placeId with
  | some existing => (.ok (some existing), db)
  | none =>
    match providerResponse with
    | .error _ => (.serverError, db)
    | .ok none => (.notFound, db)
    | .ok (some placeDetails) =>
      match AssetMapper.mapGooglePlaceToAsset placeDetails (some "") (some [])
          none (some ⟨⟩) with
      | .error _ => (.serverError, db)
      | .ok assetData =>
        let create := createAsset db assetData
        match OpenAIService.generateDescription summaryResponse with
        | .error _ => (.serverError, create.2)
        | .ok aiDescription =>
          let category := OpenAIService.classifyAssetCategory categoryResponse
          let update := updateAssetAi create.2 create.1._id aiDescription category
          (.ok update.1, update.2)

/-- Number of persisted assets carrying a given external id. -/
def countByExternalId (db : AssetDb) (placeId : String) : Nat :=
  db.assets.countP (fun r => r.asset.externalId = placeId)

/-- Number of persisted places carrying a given place id. -/
def countByPlaceId (db : PlaceDb) (placeId : String) : Nat :=
  db.places.countP (fun r => r.data.placeId = placeId)

/-- The unique-index invariant the store enforces on `externalId`. -/
def UniqueExternalIds (db : AssetDb) : Prop :=
  ∀ placeId, countByExternalId db placeId ≤ 1

/-- The unique-index invariant the store enforces on `placeId`. -/
def UniquePlaceIds (db : PlaceDb) : Prop :=
  ∀ placeId, countByPlaceId db placeId ≤ 1

/-! ## Supporting lemmas -/

theorem getPhotoUrlNew_error_msg (svc : GoogleMapsServiceNew) (nm : String)
    (w : Nat) (e : String) (h : svc.getPhotoUrl nm w = .error e) :
    e = "Photo name is required" ∨ e = "Invalid photo name format" := by
  unfold GoogleMapsServiceNew.getPhotoUrl at h
  split at h
  · exact Or.inl (Except.error.inj h).symm
  · split at h
    · exact Or.inr (Except.error.inj h).symm
    · exact absurd h (by simp)

theorem processPhoto_error_msg (gms : Option GoogleMapsServiceNew)
    (p : GPNewPhotoIn) (e : String) (h : processPhoto gms p = .error e) :
    e = "Photo name is required" ∨ e = "Invalid photo name format" := by
  unfold processPhoto at h
  split at h
  · exact absurd h (by simp)
  · rcases gms with _ | svc
    · simp at h
    · rcases hu : svc.getPhotoUrl (p.name.getD "")
          (Nat.min (p.widthPx.getD 0) 800) with eu | u
      · simp [hu] at h
        subst h
        exact getPhotoUrlNew_error_msg svc _ _ _ hu
      · simp [hu] at h

theorem allPhotos_error_msg (gms : Option GoogleMapsServiceNew)
    (ps : List GPNewPhotoIn) (e : String)
    (h : allPhotos gms ps = .error e) :
    e = "Photo name is required" ∨ e = "Invalid photo name format" := by
  induction ps with
  | nil => simp [allPhotos] at h
  | cons p ps ih =>
    rcases hp : processPhoto gms p with ep | r
    · simp [allPhotos, hp] at h
      subst h
      exact processPhoto_error_msg gms p _ hp
    · rcases hps : allPhotos gms ps with eps | rs
      · simp [allPhotos, hp, hps] at h
        subst h
        exact ih hps
      · simp [allPhotos, hp, hps] at h

theorem mapPhotos_error_msg (gms : Option GoogleMapsServiceNew)
    (photos : Option (List GPNewPhotoIn)) (e : String)
    (h : mapPhotos gms photos = .error e) :
    e = "Photo name is required" ∨ e = "Invalid photo name format" := by
  rcases photos with _ | ps
  · simp [mapPhotos] at h
  · rcases hps : allPhotos gms ps with eps | rs
    · simp [mapPhotos, hps] at h
      subst h
      exact allPhotos_error_msg gms ps _ hps
    · simp [mapPhotos, hps] at h

/-- The retention test of the new mapper's photo filter: a photo is kept
exactly when both its `name` and its `widthPx` are truthy. -/
def keptPhoto (photo : GPNewPhotoIn) : Bool :=
  strTruthy photo.name && natTruthy photo.widthPx

theorem processPhoto_not_kept (gms : Option GoogleMapsServiceNew)
    (p : GPNewPhotoIn) (h : keptPhoto p = false) :
    processPhoto gms p = .ok none := by
  unfold processPhoto
  rw [if_pos]
  unfold keptPhoto at h
  rcases Bool.and_eq_false_iff.mp h with h' | h'
  · exact Or.inl h'
  · exact Or.inr h'

theorem processPhoto_ok_some (gms : Option GoogleMapsServiceNew)
    (p : GPNewPhotoIn) (q : AssetPhotoNew)
    (h : processPhoto gms p = .ok (some q)) :
    p.name = some q.name ∧ q.name ≠ "" ∧
    p.widthPx = some q.widthPx ∧ q.widthPx ≠ 0 ∧
    q.heightPx = p.heightPx.getD 0 ∧
    (gms = none → q.photoUrl = none) ∧
    (∀ svc, gms = some svc →
      ∃ u, svc.getPhotoUrl q.name (Nat.min q.widthPx 800) = .ok u ∧
        q.photoUrl = some u) := by
  unfold processPhoto at h
  split at h
  · exact absurd h (by simp)
  · rename_i hcond
    have hname : strTruthy p.name = true := by
      cases hx : strTruthy p.name
      · exact absurd (Or.inl hx) hcond
      · rfl
    have hwidth : natTruthy p.widthPx = true := by
      cases hx : natTruthy p.widthPx
      · exact absurd (Or.inr hx) hcond
      · rfl
    have hn : p.name = some (p.name.getD "") ∧ p.name.getD "" ≠ "" := by
      rcases hp : p.name with _ | s
      · rw [hp] at hname
        exact absurd hname (by simp [strTruthy])
      · rw [hp] at hname
        refine ⟨rfl, ?_⟩
        simpa [strTruthy] using hname
    have hw : p.widthPx = some (p.widthPx.getD 0) ∧ p.widthPx.getD 0 ≠ 0 := by
      rcases hp : p.widthPx with _ | n
      · rw [hp] at hwidth
        exact absurd hwidth (by simp [natTruthy])
      · rw [hp] at hwidth
        refine ⟨rfl, ?_⟩
        simpa [natTruthy] using hwidth
    rcases gms with _ | svc
    · dsimp only at h
      have hq := (Except.ok.inj h)
      have hq' := (Option.some.inj hq).symm
      subst hq'
      exact ⟨hn.1, hn.2, hw.1, hw.2, rfl, fun _ => rfl, fun svc hsvc => by
        exact absurd hsvc (by simp)⟩
    · dsimp only at h
      rcases hu : svc.getPhotoUrl (p.name.getD "")
          (Nat.min (p.widthPx.getD 0) 800) with eu | u
      · rw [hu] at h
        exact absurd h (by simp)
      · rw [hu] at h
        have hq := (Except.ok.inj h)
        have hq' := (Option.some.inj hq).symm
        subst hq'
        refine ⟨hn.1, hn.2, hw.1, hw.2, rfl, by simp, ?_⟩
        intro svc' hsvc
        have : svc' = svc := (Option.some.inj hsvc.symm)
        subst this
        exact ⟨u, hu, rfl⟩

theorem processPhoto_kept_not_none (gms : Option GoogleMapsServiceNew)
    (p : GPNewPhotoIn) (h : keptPhoto p = true) :
    processPhoto gms p ≠ .ok none := by
  unfold processPhoto
  rw [if_neg]
  · rcases gms with _ | svc
    · simp
    · rcases hu : svc.getPhotoUrl (p.name.getD "")
          (Nat.min (p.widthPx.getD 0) 800) with eu | u <;> simp [hu]
  · unfold keptPhoto at h
    rintro (h' | h')
    · rw [h'] at h
      exact absurd h (by simp)
    · rw [h'] at h
      exact absurd h (by simp)

theorem allPhotos_ok_mem (gms : Option GoogleMapsServiceNew)
    (ps : List GPNewPhotoIn) (rs : List (Option AssetPhotoNew))
    (h : allPhotos gms ps = .ok rs) :
    ∀ q ∈ rs.filterMap id, ∃ p ∈ ps, processPhoto gms p = .ok (some q) := by
  induction ps generalizing rs with
  | nil =>
    have : rs = [] := by simpa [allPhotos] using h.symm
    subst this
    intro q hq
    exact absurd hq (by simp)
  | cons p ps ih =>
    rcases hp : processPhoto gms p with ep | r
    · simp [allPhotos, hp] at h
    · rcases hps : allPhotos gms ps with eps | rs'
      · simp [allPhotos, hp, hps] at h
      · simp only [allPhotos, hp, hps] at h
        have hrs : r :: rs' = rs := by simpa using h
        subst hrs
        intro q hq
        rcases r with _ | r0
        · obtain ⟨p', hp', hq'⟩ := ih rs' hps q (by
            have hq' : some q ∈ rs' := by simpa using hq
            simpa using hq')
          exact ⟨p', List.mem_cons_of_mem _ hp', hq'⟩
        · have hq' : q = r0 ∨ some q ∈ rs' := by simpa using hq
          rcases hq' with hq0 | hq1
          · exact ⟨p, List.mem_cons_self _ _, by rw [hp, hq0]⟩
          · obtain ⟨p', hp', hq''⟩ := ih rs' hps q (by simpa using hq1)
            exact ⟨p', List.mem_cons_of_mem _ hp', hq''⟩

theorem allPhotos_ok_names (gms : Option GoogleMapsServiceNew)
    (ps : List GPNewPhotoIn) (rs : List (Option AssetPhotoNew))
    (h : allPhotos gms ps = .ok rs) :
    (rs.filterMap id).map AssetPhotoNew.name =
      (ps.filter keptPhoto).map (fun p => p.name.getD "") := by
  induction ps generalizing rs with
  | nil =>
    have : rs = [] := by simpa [allPhotos] using h.symm
    subst this
    rfl
  | cons p ps ih =>
    rcases hp : processPhoto gms p with ep | r
    · simp [allPhotos, hp] at h
    · rcases hps : allPhotos gms ps with eps | rs'
      · simp [allPhotos, hp, hps] at h
      · simp only [allPhotos, hp, hps] at h
        have hrs : r :: rs' = rs := by simpa using h
        subst hrs
        cases hk : keptPhoto p
        · have hnone := processPhoto_not_kept gms p hk
          rw [hnone] at hp
          have hr' : (none : Option AssetPhotoNew) = r := Except.ok.inj hp
          rw [← hr']
          simpa [hk] using ih rs' hps
        · rcases r with _ | q
          · exact absurd hp (processPhoto_kept_not_none gms p hk)
          · have hspec := processPhoto_ok_some gms p q (by rw [hp])
            have hname : q.name = p.name.getD "" := by
              rw [hspec.1]
              rfl
            simpa [hk, hname] using ih rs' hps

/-- Field characterization of the legacy per-photo mapping: stored fields keep
the `||`-defaulted raw values, and a URL is attached exactly when both the
service and a truthy reference are present, using the capped request width. -/
theorem legacyPhotoOut_spec (gms : Option GoogleMapsService) (p : GPPhotoIn) :
    (legacyPhotoOut gms p).photoReference = strOr p.photo_reference "" ∧
    (legacyPhotoOut gms p).height = natOr p.height 0 ∧
    (legacyPhotoOut gms p).width = natOr p.width 0 ∧
    ((legacyPhotoOut gms p).photoUri.isSome ↔
      gms.isSome = true ∧ strTruthy p.photo_reference = true) ∧
    (∀ svc r, gms = some svc → p.photo_reference = some r → r ≠ "" →
      (legacyPhotoOut gms p).photoUri =
        some (svc.getPhotoUrl r (Nat.min (natOr p.width 800) 800))) := by
  rcases gms with _ | svc <;> rcases hr : p.photo_reference with _ | r
  · refine ⟨?_, ?_, ?_, ?_, ?_⟩ <;> simp [legacyPhotoOut, hr, strTruthy]
  · refine ⟨?_, ?_, ?_, ?_, ?_⟩ <;> simp [legacyPhotoOut, hr, strTruthy]
  · refine ⟨?_, ?_, ?_, ?_, ?_⟩ <;> simp [legacyPhotoOut, hr, strTruthy]
  · by_cases he : r = ""
    · subst he
      refine ⟨?_, ?_, ?_, ?_, ?_⟩ <;> simp [legacyPhotoOut, hr, strTruthy]
    · refine ⟨?_, ?_, ?_, ?_, ?_⟩ <;>
        simp [legacyPhotoOut, hr, strTruthy, he]

/-- Success inversion of the legacy mapper's photo list: every raw photo is
transcribed, in order, by `legacyPhotoOut`. -/
theorem toAsset_ok_photos (place : GooglePlaceDetails) (aiDescription : String)
    (aiTags : List String) (googleMapsService : Option GoogleMapsService)
    (a : AssetLegacy)
    (h : AssetMapper.toAsset place aiDescription aiTags googleMapsService =
      .ok a) :
    a.photos =
      match place.photos with
      | some ps => ps.map (legacyPhotoOut googleMapsService)
      | none => [] := by
  unfold AssetMapper.toAsset at h
  rcases hg : place.geometry with _ | g
  · rw [hg] at h
    exact absurd h (by simp)
  · rw [hg] at h
    rcases hl : g.location with _ | loc
    · simp only [hl] at h
      exact absurd h (by simp)
    · simp only [hl] at h
      have := (Except.ok.inj h).symm
      rw [this]

/-! ## Claim theorems -/

/-- C1: both mappers reject a raw record whose geometry/location is absent
with the corresponding "missing" error and produce no Asset; on any record
whose location is present they never fail for that reason (the legacy mapper
cannot fail at all then, the new one can only fail with a photo-URL error). -/
theorem C1_missing_location_is_hard_failure :
    (∀ (place : GooglePlaceDetails) (aiDescription : String)
        (aiTags : List String) (googleMapsService : Option GoogleMapsService),
      (place.geometry.bind GPGeometryIn.location = none →
        AssetMapper.toAsset place aiDescription aiTags googleMapsService =
          .error "Place geometry or location is missing") ∧
      (place.geometry.bind GPGeometryIn.location ≠ none →
        ∃ a, AssetMapper.toAsset place aiDescription aiTags googleMapsService =
          .ok a)) ∧
    (∀ (place : GooglePlaceNew) (aiDescription : Option String)
        (aiTags : Option (List String)) (landingPage : Option String)
        (googleMapsService : Option GoogleMapsServiceNew),
      (place.location = none →
        AssetMapper.mapGooglePlaceToAsset place aiDescription aiTags landingPage
          googleMapsService = .error "Place location is missing") ∧
      (place.location ≠ none →
        AssetMapper.mapGooglePlaceToAsset place aiDescription aiTags landingPage
          googleMapsService ≠ .error "Place location is missing")) := by
  constructor
  · intro place aiDescription aiTags googleMapsService
    constructor
    · intro h
      unfold AssetMapper.toAsset
      rcases hg : place.geometry with _ | g
      · rfl
      · rcases hl : g.location with _ | loc
        · simp [hl]
        · simp [hg, hl] at h
    · intro h
      unfold AssetMapper.toAsset
      rcases hg : place.geometry with _ | g
      · simp [hg] at h
      · rcases hl : g.location with _ | loc
        · simp [hg, hl] at h
        · simp only [hl]
          exact ⟨_, rfl⟩
  · intro place aiDescription aiTags landingPage googleMapsService
    constructor
    · intro h
      unfold AssetMapper.mapGooglePlaceToAsset
      rw [h]
    · intro h hcontra
      unfold AssetMapper.mapGooglePlaceToAsset at hcontra
      rcases hl : place.location with _ | loc
      · exact h hl
      · rw [hl] at hcontra
        rcases hmp : mapPhotos googleMapsService place.photos with e | photos
        · rw [hmp] at hcontra
          rcases mapPhotos_error_msg googleMapsService place.photos e hmp with
            he | he <;> simp [he] at hcontra
        · rw [hmp] at hcontra
          exact absurd hcontra (by simp)

/-- C1 witness: the legacy mapper rejects a concrete record without geometry,
and accepts (with some mapped asset) the same record once a location is added. -/
theorem C1_missing_location_is_hard_failure_witness :
    AssetMapper.toAsset
      { place_id := some "abc", name := some "Cafe X", formatted_address := none
        address_components := none, adr_address := none, business_status := none
        permanently_closed := none, geometry := none, icon := none
        icon_background_color := none, icon_mask_base_uri := none, photos := none
        plus_code := none, types := none, url := none, utc_offset := none
        vicinity := none, formatted_phone_number := none
        international_phone_number := none, website := none, opening_hours := none
        price_level := none, rating := none, user_ratings_total := none
        reviews := none, wheelchair_accessible_entrance := none } "" [] none =
      .error "Place geometry or location is missing" ∧
    AssetMapper.mapGooglePlaceToAsset
      { id := some "abc", displayName := none, formattedAddress := none
        shortFormattedAddress := none, location := none, rating := none
        userRatingCount := none, googleMapsUri := none, websiteUri := none
        regularOpeningHours := none, types := none, photos := none
        parkingOptions := none, paymentOptions := none
        accessibilityOptions := none, editorialSummary := none
        priceLevel := none, reviews := none, allowsDogs := none }
      none none none none = .error "Place location is missing" := by
  constructor
  · exact (C1_missing_location_is_hard_failure.1 _ "" [] none).1 rfl
  · exact (C1_missing_location_is_hard_failure.2 _ none none none none).1 rfl

/-- C5: category classification always lands in the six-value `Category`
enumeration; a client response outside the recognized five-value set falls back
to `"Default"`, and a thrown classification error is caught and also yields
`"Default"` instead of propagating. -/
theorem C5_classification_total_and_enumerated
    (response : Except String (Option String)) :
    OpenAIService.classifyAssetCategory response ∈ OpenAIService.categoryValues ∧
    (∀ e, response = .error e →
      OpenAIService.classifyAssetCategory response = "Default") ∧
    (∀ content, response = .ok content →
      OpenAIService.responseText content ∉ OpenAIService.validCategories →
      OpenAIService.classifyAssetCategory response = "Default") := by
  refine ⟨?_, ?_, ?_⟩
  · rcases response with e | content
    · simp [OpenAIService.classifyAssetCategory, OpenAIService.categoryValues]
    · unfold OpenAIService.classifyAssetCategory
      dsimp only
      by_cases hc : OpenAIService.validCategories.contains
          (OpenAIService.responseText content) = true
      · rw [if_pos hc]
        have hm : OpenAIService.responseText content ∈
            OpenAIService.validCategories := by
          simpa using hc
        have hsub : ∀ x ∈ OpenAIService.validCategories,
            x ∈ OpenAIService.categoryValues := by decide
        exact hsub _ hm
      · rw [if_neg hc]
        simp [OpenAIService.categoryValues]
  · intro e he
    rw [he]
    rfl
  · intro content hc hmem
    rw [hc]
    unfold OpenAIService.classifyAssetCategory
    dsimp only
    rw [if_neg (fun hx => hmem (by simpa using hx))]

/-- C5 witness: a concrete free-text response outside the recognized set and a
concrete thrown error both classify as `"Default"`. -/
theorem C5_classification_total_and_enumerated_witness :
    OpenAIService.classifyAssetCategory (.ok (some "a lovely museum")) =
      "Default" ∧
    OpenAIService.classifyAssetCategory (.error "OpenAI API error") =
      "Default" := by
  constructor
  · exact (C5_classification_total_and_enumerated
      (.ok (some "a lovely museum"))).2.2 (some "a lovely museum") rfl
      (by decide)
  · exact (C5_classification_total_and_enumerated
      (.error "OpenAI API error")).2.1 "OpenAI API error" rfl

/-- C10: on any client response, `generateTags` returns exactly the trimmed
comma-separated segments of the trimmed response text with the empty segments
dropped; hence every returned tag is non-empty, and an empty or missing
response yields `[]` rather than an error. -/
theorem C10_generateTags_splits_trims_filters (content : Option String) :
    OpenAIService.generateTags (.ok content) =
      .ok (((jsSplit (OpenAIService.responseText content) ',').map
        jsTrim).filter (· ≠ "")) ∧
    (∀ tags, OpenAIService.generateTags (.ok content) = .ok tags →
      ∀ t ∈ tags, t ≠ "") ∧
    ((content = none ∨ content = some "") →
      OpenAIService.generateTags (.ok content) = .ok []) := by
  refine ⟨rfl, ?_, ?_⟩
  · intro tags htags t ht
    have : tags = ((jsSplit (OpenAIService.responseText content) ',').map
        jsTrim).filter (· ≠ "") := by
      simpa [OpenAIService.generateTags] using htags.symm
    subst this
    have := List.of_mem_filter ht
    simpa using this
  · rintro (rfl | rfl) <;> rfl

/-- C10 witness: a concrete response with spaces and a trailing comma yields
only non-empty trimmed tags, and the missing response yields `[]`. -/
theorem C10_generateTags_splits_trims_filters_witness :
    ("a" : String) ≠ "" ∧ ("b" : String) ≠ "" ∧
    OpenAIService.generateTags (.ok none) = .ok [] := by
  refine ⟨?_, ?_, ?_⟩
  · exact (C10_generateTags_splits_trims_filters (some "a, b,")).2.1
      ["a", "b"] rfl "a" (by decide)
  · exact (C10_generateTags_splits_trims_filters (some "a, b,")).2.1
      ["a", "b"] rfl "b" (by decide)
  · exact (C10_generateTags_splits_trims_filters none).2.2 (Or.inl rfl)

/-- C9: prompt construction fails with the "unsupported request type" error
exactly when the request type has no entry in the configuration table; on any
registered request type it returns a message pair whose system message is the
fixed `systemMessage` constant, hence identical across request types; and the
three built-in request types are registered in the initial table. -/
theorem C9_generatePrompt_unsupported_type {α : Type}
    (template : PromptManager.PromptContext α → String)
    (configs : List (String × String)) (asset : α) (requestType : String) :
    ((PromptManager.generatePrompt template configs asset requestType =
        .error ("Unsupported request type: " ++ requestType)) ↔
      PromptManager.lookupConfig configs requestType = none) ∧
    (∀ details, PromptManager.lookupConfig configs requestType = some details →
      PromptManager.generatePrompt template configs asset requestType =
        .ok { systemMessage := PromptManager.systemMessage
              userMessage := template ⟨asset, requestType, details⟩ }) ∧
    (∀ p, PromptManager.generatePrompt template configs asset requestType =
        .ok p → p.systemMessage = PromptManager.systemMessage) ∧
    ((PromptManager.lookupConfig PromptManager.REQUEST_CONFIGS
        RequestType.DESCRIPTION).isSome = true ∧
      (PromptManager.lookupConfig PromptManager.REQUEST_CONFIGS
        RequestType.TAGS).isSome = true ∧
      (PromptManager.lookupConfig PromptManager.REQUEST_CONFIGS
        RequestType.LANDING_PAGE).isSome = true) := by
  refine ⟨?_, ?_, ?_, by decide, by decide, by decide⟩
  · constructor
    · intro h
      rcases hl : PromptManager.lookupConfig configs requestType with _ | details
      · rfl
      · rw [PromptManager.generatePrompt, hl] at h
        exact absurd h (by simp)
    · intro h
      rw [PromptManager.generatePrompt, h]
  · intro details h
    rw [PromptManager.generatePrompt, h]
  · intro p hp
    rcases hl : PromptManager.lookupConfig configs requestType with _ | details
    · rw [PromptManager.generatePrompt, hl] at hp
      exact absurd hp (by simp)
    · rw [PromptManager.generatePrompt, hl] at hp
      have := (Except.ok.inj hp).symm
      rw [this]

/-- A concrete compiled template for exercising the prompt construction. -/
def constUserTemplate : PromptManager.PromptContext Unit → String :=
  fun _ => "user"

/-- C9 witness: on the initial table the `tags` request type is registered and
produces the constant system message, while an unregistered type fails with
the "unsupported request type" error. -/
theorem C9_generatePrompt_unsupported_type_witness :
    PromptManager.generatePrompt constUserTemplate
      PromptManager.REQUEST_CONFIGS () RequestType.TAGS =
      .ok { systemMessage := PromptManager.systemMessage
            userMessage := "user" } ∧
    PromptManager.generatePrompt constUserTemplate
      PromptManager.REQUEST_CONFIGS () "poem" =
      .error ("Unsupported request type: " ++ "poem") := by
  constructor
  · exact (C9_generatePrompt_unsupported_type constUserTemplate
      PromptManager.REQUEST_CONFIGS () RequestType.TAGS).2.1 _ rfl
  · exact (C9_generatePrompt_unsupported_type constUserTemplate
      PromptManager.REQUEST_CONFIGS () "poem").1.mpr (by decide)

/-- Success inversion for the new mapper: a mapped asset is exactly the
transcription of the raw record, with the photo pipeline's output plugged in. -/
theorem mapGooglePlaceToAsset_ok (place : GooglePlaceNew)
    (aiDescription : Option String) (aiTags : Option (List String))
    (landingPage : Option String)
    (googleMapsService : Option GoogleMapsServiceNew) (a : AssetNew)
    (h : AssetMapper.mapGooglePlaceToAsset place aiDescription aiTags
      landingPage googleMapsService = .ok a) :
    ∃ loc photos, place.location = some loc ∧
      mapPhotos googleMapsService place.photos = .ok photos ∧
      a =
        { externalId := place.id.getD ""
          displayName := place.displayName.map (fun d =>
            { text := d.text.getD "", languageCode := d.languageCode.getD "en" })
          formattedAddress := place.formattedAddress
          shortFormattedAddress := place.shortFormattedAddress
          location :=
            { latitude := loc.latitude.getD 0
              longitude := loc.longitude.getD 0 }
          rating := place.rating
          userRatingCount := place.userRatingCount
          googleMapsUri := place.googleMapsUri
          websiteUri := place.websiteUri
          regularOpeningHours := place.regularOpeningHours.map (fun oh =>
            { periods :=
                match oh.periods with
                | some ps => ps.map (fun per =>
                    { open_ := hourPointOut per.open_
                      close := hourPointOut per.close })
                | none => []
              weekdayDescriptions := oh.weekdayDescriptions.getD [] })
          primaryType := place.types.bind List.head?
          types := place.types
          photos := photos
          parkingOptions := place.parkingOptions.map (fun g =>
            { freeParkingLot := g.freeParkingLot.coalesceU
              paidParkingLot := g.paidParkingLot.coalesceU
              freeStreetParking := g.freeStreetParking.coalesceU
              valetParking := g.valetParking.coalesceU
              freeGarageParking := g.freeGarageParking.coalesceU
              paidGarageParking := g.paidGarageParking.coalesceU })
          paymentOptions := place.paymentOptions.map (fun g =>
            { acceptsCreditCards := g.acceptsCreditCards.coalesceU
              acceptsDebitCards := g.acceptsDebitCards.coalesceU
              acceptsCashOnly := g.acceptsCashOnly.coalesceU
              acceptsNfc := g.acceptsNfc.coalesceU })
          accessibilityOptions := place.accessibilityOptions.map (fun g =>
            { wheelchairAccessibleParking := g.wheelchairAccessibleParking.coalesceU
              wheelchairAccessibleEntrance := g.wheelchairAccessibleEntrance.coalesceU
              wheelchairAccessibleRestroom := g.wheelchairAccessibleRestroom.coalesceU
              wheelchairAccessibleSeating := g.wheelchairAccessibleSeating.coalesceU })
          editorialSummary := place.editorialSummary.map (fun e =>
            { text := e.text.getD "", languageCode := e.languageCode.getD "en" })
          priceLevel :=
            match place.priceLevel with
            | some s =>
                if s ≠ "" ∧ s ≠ "PRICE_LEVEL_UNSPECIFIED" then some s else none
            | none => none
          reviews := place.reviews.map (fun rs =>
            rs.map (fun r =>
              { name := r.name.getD ""
                relativePublishTimeDescription :=
                  r.relativePublishTimeDescription.getD ""
                rating := r.rating.getD 0
                text :=
                  { text := (r.text.bind (·.text)).getD ""
                    languageCode := (r.text.bind (·.languageCode)).getD "en" }
                authorAttribution :=
                  { displayName := (r.authorAttribution.bind (·.displayName)).getD ""
                    uri := (r.authorAttribution.bind (·.uri)).getD ""
                    photoUri := (r.authorAttribution.bind (·.photoUri)).getD "" } }))
          allowsDogs := place.allowsDogs
          aiDescription := aiDescription
          aiTags := aiTags
          aiLandingPage := landingPage } := by
  unfold AssetMapper.mapGooglePlaceToAsset at h
  rcases hl : place.location with _ | loc
  · rw [hl] at h
    exact absurd h (by simp)
  · rw [hl] at h
    rcases hmp : mapPhotos googleMapsService place.photos with e | photos
    · rw [hmp] at h
      exact absurd h (by simp)
    · rw [hmp] at h
      exact ⟨loc, photos, rfl, rfl, (Except.ok.inj h).symm⟩

/-- The claim's per-flag contract: an absent (`undefined`) or `null` input flag
maps to `undefined` (`none`), and a mapped `false` can only come from a literal
input `false`, never from an absent flag. -/
def flagOk (input : NVal Bool) (output : Option Bool) : Prop :=
  ((input = .undef ∨ input = .null) → output = none) ∧
  (∀ b, output = some b → input = .val b)

theorem flagOk_coalesceU (input : NVal Bool) : flagOk input input.coalesceU := by
  cases input <;> simp [flagOk, NVal.coalesceU]

/-- C4: in the mapped asset each option group is present exactly when the raw
group is, and every boolean flag of the parking, payment and accessibility
groups satisfies `flagOk`: `null` or absent maps to `undefined`, never to
`false`. -/
theorem C4_option_flags_preserve_unknown (place : GooglePlaceNew)
    (aiDescription : Option String) (aiTags : Option (List String))
    (landingPage : Option String)
    (googleMapsService : Option GoogleMapsServiceNew) (a : AssetNew)
    (h : AssetMapper.mapGooglePlaceToAsset place aiDescription aiTags
      landingPage googleMapsService = .ok a) :
    (a.parkingOptions.isSome = place.parkingOptions.isSome ∧
      a.paymentOptions.isSome = place.paymentOptions.isSome ∧
      a.accessibilityOptions.isSome = place.accessibilityOptions.isSome) ∧
    (∀ gIn gOut, place.parkingOptions = some gIn →
      a.parkingOptions = some gOut →
      flagOk gIn.freeParkingLot gOut.freeParkingLot ∧
      flagOk gIn.paidParkingLot gOut.paidParkingLot ∧
      flagOk gIn.freeStreetParking gOut.freeStreetParking ∧
      flagOk gIn.valetParking gOut.valetParking ∧
      flagOk gIn.freeGarageParking gOut.freeGarageParking ∧
      flagOk gIn.paidGarageParking gOut.paidGarageParking) ∧
    (∀ gIn gOut, place.paymentOptions = some gIn →
      a.paymentOptions = some gOut →
      flagOk gIn.acceptsCreditCards gOut.acceptsCreditCards ∧
      flagOk gIn.acceptsDebitCards gOut.acceptsDebitCards ∧
      flagOk gIn.acceptsCashOnly gOut.acceptsCashOnly ∧
      flagOk gIn.acceptsNfc gOut.acceptsNfc) ∧
    (∀ gIn gOut, place.accessibilityOptions = some gIn →
      a.accessibilityOptions = some gOut →
      flagOk gIn.wheelchairAccessibleParking gOut.wheelchairAccessibleParking ∧
      flagOk gIn.wheelchairAccessibleEntrance gOut.wheelchairAccessibleEntrance ∧
      flagOk gIn.wheelchairAccessibleRestroom gOut.wheelchairAccessibleRestroom ∧
      flagOk gIn.wheelchairAccessibleSeating gOut.wheelchairAccessibleSeating) := by
  have ha : a.parkingOptions = place.parkingOptions.map (fun g =>
      { freeParkingLot := g.freeParkingLot.coalesceU
        paidParkingLot := g.paidParkingLot.coalesceU
        freeStreetParking := g.freeStreetParking.coalesceU
        valetParking := g.valetParking.coalesceU
        freeGarageParking := g.freeGarageParking.coalesceU
        paidGarageParking := g.paidGarageParking.coalesceU }) ∧
      a.paymentOptions = place.paymentOptions.map (fun g =>
      { acceptsCreditCards := g.acceptsCreditCards.coalesceU
        acceptsDebitCards := g.acceptsDebitCards.coalesceU
        acceptsCashOnly := g.acceptsCashOnly.coalesceU
        acceptsNfc := g.acceptsNfc.coalesceU }) ∧
      a.accessibilityOptions = place.accessibilityOptions.map (fun g =>
      { wheelchairAccessibleParking := g.wheelchairAccessibleParking.coalesceU
        wheelchairAccessibleEntrance := g.wheelchairAccessibleEntrance.coalesceU
        wheelchairAccessibleRestroom := g.wheelchairAccessibleRestroom.coalesceU
        wheelchairAccessibleSeating := g.wheelchairAccessibleSeating.coalesceU }) := by
    unfold AssetMapper.mapGooglePlaceToAsset at h
    rcases hl : place.location with _ | loc
    · rw [hl] at h
      exact absurd h (by simp)
    · rw [hl] at h
      rcases hmp : mapPhotos googleMapsService place.photos with e | photos
      · rw [hmp] at h
        exact absurd h (by simp)
      · rw [hmp] at h
        have := (Except.ok.inj h).symm
        rw [this]
        exact ⟨rfl, rfl, rfl⟩
  obtain ⟨hp, hm, hac⟩ := ha
  refine ⟨⟨by rw [hp]; cases place.parkingOptions <;> rfl,
           by rw [hm]; cases place.paymentOptions <;> rfl,
           by rw [hac]; cases place.accessibilityOptions <;> rfl⟩, ?_, ?_, ?_⟩
  · intro gIn gOut hIn hOut
    rw [hp, hIn] at hOut
    have := (Option.some.inj hOut).symm
    rw [this]
    exact ⟨flagOk_coalesceU _, flagOk_coalesceU _, flagOk_coalesceU _,
      flagOk_coalesceU _, flagOk_coalesceU _, flagOk_coalesceU _⟩
  · intro gIn gOut hIn hOut
    rw [hm, hIn] at hOut
    have := (Option.some.inj hOut).symm
    rw [this]
    exact ⟨flagOk_coalesceU _, flagOk_coalesceU _, flagOk_coalesceU _,
      flagOk_coalesceU _⟩
  · intro gIn gOut hIn hOut
    rw [hac, hIn] at hOut
    have := (Option.some.inj hOut).symm
    rw [this]
    exact ⟨flagOk_coalesceU _, flagOk_coalesceU _, flagOk_coalesceU _,
      flagOk_coalesceU _⟩

/-- A concrete raw record whose parking group carries a `null` flag, an absent
flag and two literal booleans. -/
def c4Place : GooglePlaceNew :=
  { id := some "c4", displayName := none, formattedAddress := none
    shortFormattedAddress := none
    location := some { latitude := some 1, longitude := some 2 }
    rating := none, userRatingCount := none, googleMapsUri := none
    websiteUri := none, regularOpeningHours := none, types := none
    photos := none
    parkingOptions := some
      { freeParkingLot := .null, paidParkingLot := .undef
        freeStreetParking := .val true, valetParking := .val false
        freeGarageParking := .null, paidGarageParking := .undef }
    paymentOptions := none, accessibilityOptions := none
    editorialSummary := none, priceLevel := none, reviews := none
    allowsDogs := none }

/-- C4 witness: on `c4Place` the mapper's parking group maps the `null` flag
and the absent flag to `undefined` (`none`), never `false`. -/
theorem C4_option_flags_preserve_unknown_witness :
    flagOk NVal.null (none : Option Bool) ∧
    flagOk NVal.undef (none : Option Bool) := by
  rcases hr : AssetMapper.mapGooglePlaceToAsset c4Place none none none none
      with e | a
  · have hsome : (AssetMapper.mapGooglePlaceToAsset c4Place none none none
        none).toOption.isSome = true := by rfl
    rw [hr] at hsome
    exact absurd hsome (by simp [Except.toOption])
  · have h := C4_option_flags_preserve_unknown c4Place none none none none a hr
    have h1 : a.parkingOptions.isSome = true := by rw [h.1.1]; rfl
    rcases ho : a.parkingOptions with _ | gOut
    · rw [ho] at h1
      exact absurd h1 (by simp)
    · have hf := h.2.1 _ gOut rfl ho
      have e1 : gOut.freeParkingLot = none := hf.1.1 (Or.inr rfl)
      have e2 : gOut.paidParkingLot = none := hf.2.1.1 (Or.inl rfl)
      exact ⟨e1 ▸ hf.1, e2 ▸ hf.2.1⟩

/-- The five price-level enumeration values named by the source's type
assertion (a compile-time cast with no runtime check). -/
def priceLevelEnum : List String :=
  ["PRICE_LEVEL_FREE", "PRICE_LEVEL_INEXPENSIVE", "PRICE_LEVEL_MODERATE",
   "PRICE_LEVEL_EXPENSIVE", "PRICE_LEVEL_VERY_EXPENSIVE"]

/-- A concrete raw record whose price level is a non-empty string outside the
five-value enumeration. -/
def c7Place : GooglePlaceNew :=
  { id := some "c7", displayName := none, formattedAddress := none
    shortFormattedAddress := none
    location := some { latitude := some 1, longitude := some 2 }
    rating := none, userRatingCount := none, googleMapsUri := none
    websiteUri := none, regularOpeningHours := none, types := none
    photos := none, parkingOptions := none, paymentOptions := none
    accessibilityOptions := none, editorialSummary := none
    priceLevel := some "FOO", reviews := none, allowsDogs := none }

/-- A concrete legacy record with a resolvable photo reference and an explicit
source width of `0`. -/
def c3ZeroWidthPlace : GooglePlaceDetails :=
  { place_id := some "abc", name := some "Cafe X", formatted_address := none
    address_components := none, adr_address := none, business_status := none
    permanently_closed := none
    geometry := some { location := some { lat := 1, lng := 2 }, viewport := none }
    icon := none, icon_background_color := none, icon_mask_base_uri := none
    photos := some [{ photo_reference := some "p1", height := some 400
                      width := some 0 }]
    plus_code := none, types := none, url := none, utc_offset := none
    vicinity := none, formatted_phone_number := none
    international_phone_number := none, website := none, opening_hours := none
    price_level := none, rating := none, user_ratings_total := none
    reviews := none, wheelchair_accessible_entrance := none }

/-- C3 counterexample: for a photo with a resolvable reference and source
width `0` (which is `≤ 800`), the legacy mapper builds the URL with the
falsy-width fallback `800`, not with `min(source width, 800) = 0` as the claim
requires; so "for width ≤ 800 the URL reflects the original width" fails. -/
theorem C3_counterexample_zero_width :
    Except.map AssetLegacy.photos
      (AssetMapper.toAsset c3ZeroWidthPlace "" []
        (some { GOOGLE_MAPS_API_KEY := "k" })) =
      .ok [{ photoReference := "p1"
             photoUri := some (GoogleMapsService.getPhotoUrl
               { GOOGLE_MAPS_API_KEY := "k" } "p1" 800)
             height := 400, width := 0 }] ∧
    Nat.min 0 800 = 0 ∧
    GoogleMapsService.getPhotoUrl { GOOGLE_MAPS_API_KEY := "k" } "p1" 800 ≠
      GoogleMapsService.getPhotoUrl { GOOGLE_MAPS_API_KEY := "k" } "p1"
        (Nat.min 0 800) := by
  refine ⟨rfl, rfl, by decide⟩

/-- C3 amended: the stored width always keeps the original (uncapped,
`0`-defaulted) value. In the legacy mapper, the resolved URL of a photo with a
resolvable reference uses width `800` when the source width exceeds `800`, the
original width when it is positive and at most `800`, and the falsy-width
fallback `800` (not `min(width,800)`) when the width is `0` or absent. In the
new mapper, photos without a positive width are dropped, and every emitted
photo's URL uses `min(widthPx, 800)` while its stored `widthPx` is the
original value. -/
theorem C3_photo_width_cap :
    (∀ (place : GooglePlaceDetails) (aiDescription : String)
        (aiTags : List String) (svc : GoogleMapsService) (a : AssetLegacy)
        (ps : List GPPhotoIn),
      AssetMapper.toAsset place aiDescription aiTags (some svc) = .ok a →
      place.photos = some ps →
      a.photos.length = ps.length ∧
      (∀ i (hi : i < ps.length) (hi' : i < a.photos.length) r,
        (ps.get ⟨i, hi⟩).photo_reference = some r → r ≠ "" →
        (a.photos.get ⟨i, hi'⟩).width = (ps.get ⟨i, hi⟩).width.getD 0 ∧
        (∀ n, (ps.get ⟨i, hi⟩).width = some n → 800 < n →
          (a.photos.get ⟨i, hi'⟩).photoUri = some (svc.getPhotoUrl r 800)) ∧
        (∀ n, (ps.get ⟨i, hi⟩).width = some n → 0 < n → n ≤ 800 →
          (a.photos.get ⟨i, hi'⟩).photoUri = some (svc.getPhotoUrl r n)) ∧
        (((ps.get ⟨i, hi⟩).width = some 0 ∨ (ps.get ⟨i, hi⟩).width = none) →
          (a.photos.get ⟨i, hi'⟩).photoUri = some (svc.getPhotoUrl r 800)))) ∧
    (∀ (place : GooglePlaceNew) (aiDescription : Option String)
        (aiTags : Option (List String)) (landingPage : Option String)
        (svc : GoogleMapsServiceNew) (a : AssetNew) (l : List AssetPhotoNew),
      AssetMapper.mapGooglePlaceToAsset place aiDescription aiTags landingPage
        (some svc) = .ok a →
      a.photos = some l →
      ∀ q ∈ l,
        (∃ p ∈ place.photos.getD [], p.widthPx = some q.widthPx ∧
          p.name = some q.name) ∧
        (∃ u, svc.getPhotoUrl q.name (Nat.min q.widthPx 800) = .ok u ∧
          q.photoUrl = some u) ∧
        (800 < q.widthPx →
          ∃ u, svc.getPhotoUrl q.name 800 = .ok u ∧ q.photoUrl = some u) ∧
        (0 < q.widthPx → q.widthPx ≤ 800 →
          ∃ u, svc.getPhotoUrl q.name q.widthPx = .ok u ∧
            q.photoUrl = some u)) := by
  constructor
  · intro place aiDescription aiTags svc a ps h hps
    have ha := toAsset_ok_photos place aiDescription aiTags (some svc) a h
    rw [hps] at ha
    constructor
    · rw [ha]
      exact List.length_map _ _
    · intro i hi hi' r hr hrne
      have hget : a.photos.get ⟨i, hi'⟩ =
          legacyPhotoOut (some svc) (ps.get ⟨i, hi⟩) := by
        have := List.get_of_eq ha ⟨i, hi'⟩
        rw [this]
        simp [List.get_eq_getElem]
      have hspec := legacyPhotoOut_spec (some svc) (ps.get ⟨i, hi⟩)
      refine ⟨by rw [hget, hspec.2.2.1]; cases hw : (ps.get ⟨i, hi⟩).width with
        | none => rfl
        | some n => by_cases hn : n = 0 <;> simp [natOr, hw, hn], ?_, ?_, ?_⟩
      · intro n hw hn
        have := hspec.2.2.2.2 svc r rfl hr hrne
        rw [hget, this, hw]
        have h1 : natOr (some n) 800 = n := by
          simp [natOr]
          omega
        have hmin : Nat.min n 800 = 800 := Nat.min_eq_right (by omega)
        rw [h1, hmin]
      · intro n hw h0 h800
        have := hspec.2.2.2.2 svc r rfl hr hrne
        rw [hget, this, hw]
        have h1 : natOr (some n) 800 = n := by
          simp [natOr]
          omega
        have hmin : Nat.min n 800 = n := Nat.min_eq_left h800
        rw [h1, hmin]
      · intro hw
        have := hspec.2.2.2.2 svc r rfl hr hrne
        rw [hget, this]
        rcases hw with hw | hw <;> rw [hw] <;> simp [natOr]
  · intro place aiDescription aiTags landingPage svc a l h hl
    obtain ⟨loc, photos, -, hmp, ha⟩ := mapGooglePlaceToAsset_ok place
      aiDescription aiTags landingPage (some svc) a h
    subst ha
    rcases hphotos : place.photos with _ | ps
    · rw [hphotos] at hmp
      simp only [mapPhotos] at hmp
      have : photos = none := (Except.ok.inj hmp).symm
      simp only at hl
      rw [this] at hl
      exact absurd hl (by simp)
    · rw [hphotos] at hmp
      rcases hall : allPhotos (some svc) ps with e | rs
      · simp [mapPhotos, hall] at hmp
      · simp only [mapPhotos, hall] at hmp
        have hphval : photos = some (rs.filterMap id) := (Except.ok.inj hmp).symm
        simp only at hl
        rw [hphval] at hl
        have hll : rs.filterMap id = l := Option.some.inj hl
        intro q hq
        rw [← hll] at hq
        obtain ⟨p, hpmem, hpq⟩ := allPhotos_ok_mem (some svc) ps rs hall q hq
        have hspec := processPhoto_ok_some (some svc) p q hpq
        obtain ⟨u, hu, hqu⟩ := hspec.2.2.2.2.2.2 svc rfl
        refine ⟨⟨p, by simp [hphotos, hpmem], hspec.2.2.1, hspec.1⟩,
          ⟨u, hu, hqu⟩, ?_, ?_⟩
        · intro h800
          refine ⟨u, ?_, hqu⟩
          rw [← Nat.min_eq_right (le_of_lt h800)]
          exact hu
        · intro h0 h800
          refine ⟨u, ?_, hqu⟩
          rw [← Nat.min_eq_left h800]
          exact hu

/-- The spec's concrete scenario: a photo with reference `p1`, width `1200`,
height `400`. -/
def c3CafePlace : GooglePlaceDetails :=
  { c3ZeroWidthPlace with
    photos := some [{ photo_reference := some "p1", height := some 400
                      width := some 1200 }] }

/-- C3 witness: in the spec's concrete scenario the stored width stays `1200`
while the resolved URL is built with the capped width `800`. -/
theorem C3_photo_width_cap_witness :
    Except.map AssetLegacy.photos
      (AssetMapper.toAsset c3CafePlace "" []
        (some { GOOGLE_MAPS_API_KEY := "k" })) =
      .ok [{ photoReference := "p1"
             photoUri := some (GoogleMapsService.getPhotoUrl
               { GOOGLE_MAPS_API_KEY := "k" } "p1" 800)
             height := 400, width := 1200 }] := by
  rcases hr : AssetMapper.toAsset c3CafePlace "" []
      (some { GOOGLE_MAPS_API_KEY := "k" }) with e | a
  · have hsome : (AssetMapper.toAsset c3CafePlace "" []
        (some { GOOGLE_MAPS_API_KEY := "k" })).toOption.isSome = true := by rfl
    rw [hr] at hsome
    exact absurd hsome (by simp [Except.toOption])
  · have hfacts := (C3_photo_width_cap.1 c3CafePlace "" []
      { GOOGLE_MAPS_API_KEY := "k" } a
      [{ photo_reference := some "p1", height := some 400, width := some 1200 }]
      hr rfl)
    have hlen : a.photos.length = 1 := hfacts.1
    have helem := hfacts.2 0 (by decide) (by omega) "p1" rfl (by decide)
    have hcap := helem.2.1 1200 rfl (by decide)
    have hwidth := helem.1
    have ha := toAsset_ok_photos c3CafePlace "" []
      (some { GOOGLE_MAPS_API_KEY := "k" }) a hr
    simp only [Except.map]
    rw [ha]
    rfl

/-- A concrete legacy record carrying one photo that has no reference token. -/
def c8Place : GooglePlaceDetails :=
  { c3ZeroWidthPlace with
    photos := some [{ photo_reference := none, height := some 50
                      width := some 100 }] }

/-- C8 counterexample: the legacy mapper does not discard a photo lacking a
usable reference token — it keeps the entry, defaulting the reference to the
empty string (and attaching no URL), so the claim's "discards every photo
lacking a usable reference" fails on `AssetMapper.toAsset`. -/
theorem C8_counterexample_legacy_keeps_referenceless :
    Except.map AssetLegacy.photos (AssetMapper.toAsset c8Place "" [] none) =
      .ok [{ photoReference := "", photoUri := none, height := 50
             width := 100 }] ∧
    strTruthy (none : Option String) = false ∧
    ([{ photoReference := "", photoUri := none, height := 50, width := 100 }] :
      List IPlacePhoto) ≠ [] := by
  refine ⟨rfl, rfl, by simp⟩

/-- List of the mapped photo names (used to state order-preserving filtering). -/
def photosNames (a : AssetNew) : Option (List String) :=
  a.photos.map (List.map AssetPhotoNew.name)

/-- C8 amended: the new mapper discards exactly the photos whose reference
name or pixel width is falsy, keeps the retained photos in input order (their
name sequence equals the name sequence of the kept raw photos), and computes a
display URL for a retained photo exactly when the resolver is present. The
legacy mapper discards nothing: it keeps every photo (defaulting a missing
reference to `""`) and attaches a URL exactly when both the resolver and a
truthy reference are present. -/
theorem C8_photo_filtering :
    (∀ (place : GooglePlaceNew) (aiDescription : Option String)
        (aiTags : Option (List String)) (landingPage : Option String)
        (googleMapsService : Option GoogleMapsServiceNew) (a : AssetNew)
        (ps : List GPNewPhotoIn),
      AssetMapper.mapGooglePlaceToAsset place aiDescription aiTags landingPage
        googleMapsService = .ok a →
      place.photos = some ps →
      ∃ l, a.photos = some l ∧
        l.map AssetPhotoNew.name =
          (ps.filter keptPhoto).map (fun p => p.name.getD "") ∧
        ∀ q ∈ l, q.photoUrl.isSome = googleMapsService.isSome) ∧
    (∀ (place : GooglePlaceDetails) (aiDescription : String)
        (aiTags : List String) (googleMapsService : Option GoogleMapsService)
        (a : AssetLegacy) (ps : List GPPhotoIn),
      AssetMapper.toAsset place aiDescription aiTags googleMapsService =
        .ok a →
      place.photos = some ps →
      a.photos.length = ps.length ∧
      (∀ i (hi : i < ps.length) (hi' : i < a.photos.length),
        (a.photos.get ⟨i, hi'⟩).photoUri.isSome = true ↔
          googleMapsService.isSome = true ∧
          strTruthy (ps.get ⟨i, hi⟩).photo_reference = true)) := by
  constructor
  · intro place aiDescription aiTags landingPage gms a ps h hps
    obtain ⟨loc, photos, -, hmp, ha⟩ := mapGooglePlaceToAsset_ok place
      aiDescription aiTags landingPage gms a h
    subst ha
    rw [hps] at hmp
    rcases hall : allPhotos gms ps with e | rs
    · simp [mapPhotos, hall] at hmp
    · simp only [mapPhotos, hall] at hmp
      have hphval : photos = some (rs.filterMap id) := (Except.ok.inj hmp).symm
      refine ⟨rs.filterMap id, by simpa using hphval, ?_, ?_⟩
      · exact allPhotos_ok_names gms ps rs hall
      · intro q hq
        obtain ⟨p, -, hpq⟩ := allPhotos_ok_mem gms ps rs hall q hq
        have hspec := processPhoto_ok_some gms p q hpq
        rcases gms with _ | svc
        · rw [hspec.2.2.2.2.2.1 rfl]
          rfl
        · obtain ⟨u, -, hqu⟩ := hspec.2.2.2.2.2.2 svc rfl
          rw [hqu]
          rfl
  · intro place aiDescription aiTags gms a ps h hps
    have ha := toAsset_ok_photos place aiDescription aiTags gms a h
    rw [hps] at ha
    constructor
    · rw [ha]
      exact List.length_map _ _
    · intro i hi hi'
      have hget : a.photos.get ⟨i, hi'⟩ =
          legacyPhotoOut gms (ps.get ⟨i, hi⟩) := by
        have := List.get_of_eq ha ⟨i, hi'⟩
        rw [this]
        simp [List.get_eq_getElem]
      rw [hget]
      exact (legacyPhotoOut_spec gms (ps.get ⟨i, hi⟩)).2.2.2.1

/-- A concrete new-API record with one resolvable photo and one photo lacking
a reference name. -/
def c8NewPlace : GooglePlaceNew :=
  { c7Place with
    priceLevel := none
    photos := some
      [{ name := some "places/x/photos/ref1", widthPx := some 900
         heightPx := some 300, authorAttributions := none },
       { name := none, widthPx := some 100, heightPx := some 50
         authorAttributions := none }] }

/-- C8 witness: on a concrete record the new mapper keeps exactly the photo
with a usable reference (in order) and resolves its URL. -/
theorem C8_photo_filtering_witness :
    Except.map photosNames
      (AssetMapper.mapGooglePlaceToAsset c8NewPlace none none none
        (some ⟨⟩)) = .ok (some ["places/x/photos/ref1"]) := by
  rcases hr : AssetMapper.mapGooglePlaceToAsset c8NewPlace none none none
      (some ⟨⟩) with e | a
  · have hsome : (AssetMapper.mapGooglePlaceToAsset c8NewPlace none none none
        (some ⟨⟩)).toOption.isSome = true := by rfl
    rw [hr] at hsome
    exact absurd hsome (by simp [Except.toOption])
  · obtain ⟨l, hl, hnames, -⟩ := C8_photo_filtering.1 c8NewPlace none none
      none (some ⟨⟩) a _ hr rfl
    simp only [Except.map, photosNames, hl]
    have hms : Option.map (List.map AssetPhotoNew.name) (some l) =
        some (List.map AssetPhotoNew.name l) := rfl
    rw [hms, hnames]
    rfl

/-- C7 counterexample: the unrecognized price-level string `"FOO"` is passed
through to the mapped asset instead of being omitted, because the restriction
to the five enumeration values is only a TypeScript cast; the claim's
"unrecognized string implies omitted" fails at this input. -/
theorem C7_counterexample_unrecognized_passthrough :
    Except.map AssetNew.priceLevel
      (AssetMapper.mapGooglePlaceToAsset c7Place none none none none) =
      .ok (some "FOO") ∧
    "FOO" ∉ priceLevelEnum ∧
    (some "FOO" : Option String) ≠ none := by
  refine ⟨rfl, by decide, by simp⟩

/-- C7 amended: the mapped price level equals the input price level if and
only if the input is present, non-empty, and not the
`"PRICE_LEVEL_UNSPECIFIED"` sentinel; it is omitted only for an absent or
empty input or the sentinel — the five-value restriction is not enforced at
runtime, so any other non-empty string passes through. -/
theorem C7_priceLevel_passthrough (place : GooglePlaceNew)
    (aiDescription : Option String) (aiTags : Option (List String))
    (landingPage : Option String)
    (googleMapsService : Option GoogleMapsServiceNew) (a : AssetNew)
    (h : AssetMapper.mapGooglePlaceToAsset place aiDescription aiTags
      landingPage googleMapsService = .ok a) (s : String) :
    a.priceLevel = some s ↔
      place.priceLevel = some s ∧ s ≠ "" ∧ s ≠ "PRICE_LEVEL_UNSPECIFIED" := by
  obtain ⟨loc, photos, -, -, ha⟩ := mapGooglePlaceToAsset_ok place aiDescription
    aiTags landingPage googleMapsService a h
  subst ha
  rcases hp : place.priceLevel with _ | s0
  · simp
  · by_cases hc : s0 ≠ "" ∧ s0 ≠ "PRICE_LEVEL_UNSPECIFIED"
    · simp only [if_pos hc]
      constructor
      · intro hs
        have : s0 = s := Option.some.inj hs
        exact ⟨this ▸ rfl, this ▸ hc.1, this ▸ hc.2⟩
      · intro hs
        exact (Option.some.inj hs.1) ▸ rfl
    · simp only [if_neg hc]
      constructor
      · intro hs
        exact absurd hs (by simp)
      · intro hs
        have : s0 = s := Option.some.inj hs.1
        exact absurd ⟨this ▸ hs.2.1, this ▸ hs.2.2⟩ hc

/-- C7 witness: a recognized, non-sentinel value passes through unchanged on a
concrete record. -/
theorem C7_priceLevel_passthrough_witness :
    Except.map AssetNew.priceLevel
      (AssetMapper.mapGooglePlaceToAsset
        { c7Place with priceLevel := some "PRICE_LEVEL_MODERATE" }
        none none none none) = .ok (some "PRICE_LEVEL_MODERATE") := by
  rcases hr : AssetMapper.mapGooglePlaceToAsset
      { c7Place with priceLevel := some "PRICE_LEVEL_MODERATE" }
      none none none none with e | a
  · have hsome : (AssetMapper.mapGooglePlaceToAsset
        { c7Place with priceLevel := some "PRICE_LEVEL_MODERATE" }
        none none none none).toOption.isSome = true := by rfl
    rw [hr] at hsome
    exact absurd hsome (by simp [Except.toOption])
  · have hpl := (C7_priceLevel_passthrough _ none none none none a hr
      "PRICE_LEVEL_MODERATE").mpr ⟨rfl, by decide, by decide⟩
    simp [Except.map, hpl]

/-! ## Registration-flow lemmas -/

theorem countByExternalId_zero_of_find_none (db : AssetDb) (pid : String)
    (h : findByExternalId db pid = none) : countByExternalId db pid = 0 := by
  unfold findByExternalId at h
  unfold countByExternalId
  rw [List.countP_eq_zero]
  intro a ha
  simpa using List.find?_eq_none.mp h a ha

theorem countByExternalId_pos_of_find_some (db : AssetDb) (pid : String)
    (stored : GAssetRec) (h : findByExternalId db pid = some stored) :
    1 ≤ countByExternalId db pid := by
  unfold findByExternalId at h
  unfold countByExternalId
  have hm := List.mem_of_find?_eq_some h
  have hp := List.find?_some h
  exact List.countP_pos_iff.mpr ⟨stored, hm, hp⟩

theorem registerGPlace_found (db : AssetDb) (pid : String)
    (pr : Except String (Option GooglePlaceNew))
    (s c : Except String (Option String)) (stored : GAssetRec)
    (h : findByExternalId db pid = some stored) :
    registerGPlace db pid pr s c = (.ok (some stored), db) := by
  unfold registerGPlace
  rw [h]

/-- A fresh registration (id unknown, fetch and mapping successful) persists
exactly one new asset carrying the requested id — whether or not the summary
generation succeeds — and the id is findable afterwards. -/
theorem registerGPlace_fresh (db : AssetDb) (pid : String)
    (place : GooglePlaceNew) (assetData : AssetNew)
    (s c : Except String (Option String))
    (hfind : findByExternalId db pid = none)
    (hmap : AssetMapper.mapGooglePlaceToAsset place (some "") (some []) none
      (some ⟨⟩) = .ok assetData)
    (hid : place.id = some pid) :
    countByExternalId (registerGPlace db pid (.ok (some place)) s c).2 pid =
      countByExternalId db pid + 1 ∧
    (findByExternalId (registerGPlace db pid (.ok (some place)) s c).2
      pid).isSome = true := by
  have hext : assetData.externalId = pid := by
    obtain ⟨loc, photos, -, -, ha⟩ := mapGooglePlaceToAsset_ok place (some "")
      (some []) none (some ⟨⟩) assetData hmap
    subst ha
    simp [hid]
  rcases s with msg | c0 <;>
    simp only [registerGPlace, hfind, hmap, OpenAIService.generateDescription]
  · constructor
    · unfold countByExternalId createAsset
      rw [List.countP_append]
      have hc1 : List.countP (fun r => decide (r.asset.externalId = pid))
          ([{ _id := db.nextId, asset := assetData, category := none }] :
            List GAssetRec) = 1 := by
        simp [List.countP_cons, hext]
      rw [hc1]
    · unfold findByExternalId createAsset
      refine List.find?_isSome.mpr
        ⟨{ _id := db.nextId, asset := assetData, category := none }, by simp,
          by simp [hext]⟩
  · constructor
    · unfold countByExternalId updateAssetAi createAsset
      rw [List.countP_map]
      rw [List.countP_congr (q := fun r => decide (r.asset.externalId = pid))
        (fun r _ => by by_cases hr : r._id = db.nextId <;>
          simp [Function.comp, hr])]
      rw [List.countP_append]
      have hc1 : List.countP (fun r => decide (r.asset.externalId = pid))
          ([{ _id := db.nextId, asset := assetData, category := none }] :
            List GAssetRec) = 1 := by
        simp [List.countP_cons, hext]
      rw [hc1]
    · unfold findByExternalId updateAssetAi createAsset
      refine List.find?_isSome.mpr
        ⟨_, List.mem_map_of_mem _
          (by simp :
            ({ _id := db.nextId, asset := assetData, category := none } :
              GAssetRec) ∈ db.assets ++
                [{ _id := db.nextId, asset := assetData, category := none }]),
          by simp [hext]⟩

theorem countByPlaceId_zero_of_find_none (db : PlaceDb) (pid : String)
    (h : findByPlaceId db pid = none) : countByPlaceId db pid = 0 := by
  unfold findByPlaceId at h
  unfold countByPlaceId
  rw [List.countP_eq_zero]
  intro a ha
  simpa using List.find?_eq_none.mp h a ha

theorem countByPlaceId_pos_of_find_some (db : PlaceDb) (pid : String)
    (stored : PlaceRec) (h : findByPlaceId db pid = some stored) :
    1 ≤ countByPlaceId db pid := by
  unfold findByPlaceId at h
  unfold countByPlaceId
  have hm := List.mem_of_find?_eq_some h
  have hp := List.find?_some h
  exact List.countP_pos_iff.mpr ⟨stored, hm, hp⟩

theorem registerPlace_found (db : PlaceDb) (pid : String)
    (pr : Except String GooglePlaceDetails)
    (dresp tresp : Except String (Option String)) (stored : PlaceRec)
    (h : findByPlaceId db pid = some stored) :
    registerPlace db pid pr dresp tresp = (.conflict stored, db) := by
  unfold registerPlace
  rw [h]

/-- A fresh legacy registration with a successful provider fetch persists
exactly one new place document carrying the fetched id, whether or not the AI
step succeeds. -/
theorem registerPlace_fresh (db : PlaceDb) (pid : String)
    (pr : Except String GooglePlaceDetails) (d : IPlaceData)
    (dresp tresp : Except String (Option String))
    (hfind : findByPlaceId db pid = none)
    (hfetch : GoogleMapsService.getEntity pid pr = .ok d)
    (hid : d.placeId = pid) :
    countByPlaceId (registerPlace db pid pr dresp tresp).2 pid =
      countByPlaceId db pid + 1 ∧
    (findByPlaceId (registerPlace db pid pr dresp tresp).2 pid).isSome =
      true := by
  have hcreate :
      countByPlaceId (createPlace db d).2 pid = countByPlaceId db pid + 1 ∧
      (findByPlaceId (createPlace db d).2 pid).isSome = true := by
    constructor
    · unfold countByPlaceId createPlace
      rw [List.countP_append]
      have hc1 : List.countP (fun r => decide (r.data.placeId = pid))
          ([{ _id := db.nextId, data := d, aiDescription := none
              aiTags := none }] : List PlaceRec) = 1 := by
        simp [List.countP_cons, hid]
      rw [hc1]
    · unfold findByPlaceId createPlace
      refine List.find?_isSome.mpr
        ⟨{ _id := db.nextId, data := d, aiDescription := none
           aiTags := none }, by simp, by simp [hid]⟩
  rcases dresp with msg | c0 <;> rcases tresp with msg2 | c2 <;>
    simp only [registerPlace, hfind, hfetch, OpenAIService.generateDescription,
      OpenAIService.generateTags]
  · exact hcreate
  · exact hcreate
  · exact hcreate
  · constructor
    · unfold countByPlaceId updatePlaceAi createPlace
      rw [List.countP_map]
      rw [List.countP_congr (q := fun r => decide (r.data.placeId = pid))
        (fun r _ => by by_cases hr : r._id = db.nextId <;>
          simp [Function.comp, hr])]
      rw [List.countP_append]
      have hc1 : List.countP (fun r => decide (r.data.placeId = pid))
          ([{ _id := db.nextId, data := d, aiDescription := none
              aiTags := none }] : List PlaceRec) = 1 := by
        simp [List.countP_cons, hid]
      rw [hc1]
    · unfold findByPlaceId updatePlaceAi createPlace
      refine List.find?_isSome.mpr
        ⟨_, List.mem_map_of_mem _
          (by simp :
            ({ _id := db.nextId, data := d, aiDescription := none
               aiTags := none } : PlaceRec) ∈ db.places ++
                [{ _id := db.nextId, data := d, aiDescription := none
                   aiTags := none }]),
          by simp [hid]⟩

/-- C2: registration is idempotent by external id, in both route variants.
Under the store's unique-key invariant, once the first call has a record to
persist (or the id already exists), exactly one Asset with the id is persisted;
the second call leaves the store untouched (in particular the stored AI fields)
and answers with the stored record — the new route as a 200 body, the legacy
route inside its 409 conflict payload. -/
theorem C2_registration_idempotent :
    (∀ (db : AssetDb) (pid : String)
        (pr1 pr2 : Except String (Option GooglePlaceNew))
        (s1 c1 s2 c2 : Except String (Option String)),
      UniqueExternalIds db →
      ((findByExternalId db pid).isSome = true ∨
        (∃ place assetData, pr1 = .ok (some place) ∧ place.id = some pid ∧
          AssetMapper.mapGooglePlaceToAsset place (some "") (some []) none
            (some ⟨⟩) = .ok assetData)) →
      countByExternalId (registerGPlace db pid pr1 s1 c1).2 pid = 1 ∧
      (registerGPlace (registerGPlace db pid pr1 s1 c1).2 pid pr2 s2 c2).2 =
        (registerGPlace db pid pr1 s1 c1).2 ∧
      (∃ stored,
        findByExternalId (registerGPlace db pid pr1 s1 c1).2 pid =
          some stored ∧
        (registerGPlace (registerGPlace db pid pr1 s1 c1).2 pid pr2 s2
          c2).1 = .ok (some stored))) ∧
    (∀ (db : PlaceDb) (pid : String)
        (pr1 pr2 : Except String GooglePlaceDetails)
        (d1 t1 d2 t2 : Except String (Option String)),
      UniquePlaceIds db →
      ((findByPlaceId db pid).isSome = true ∨
        (∃ d, GoogleMapsService.getEntity pid pr1 = .ok d ∧ d.placeId = pid)) →
      countByPlaceId (registerPlace db pid pr1 d1 t1).2 pid = 1 ∧
      (registerPlace (registerPlace db pid pr1 d1 t1).2 pid pr2 d2 t2).2 =
        (registerPlace db pid pr1 d1 t1).2 ∧
      (∃ stored,
        findByPlaceId (registerPlace db pid pr1 d1 t1).2 pid = some stored ∧
        (registerPlace (registerPlace db pid pr1 d1 t1).2 pid pr2 d2 t2).1 =
          .conflict stored)) := by
  constructor
  · intro db pid pr1 pr2 s1 c1 s2 c2 hu hcase
    rcases hf0 : findByExternalId db pid with _ | e
    · rcases hcase with hsome | ⟨place, assetData, hpr, hid, hmap⟩
      · rw [hf0] at hsome
        exact absurd hsome (by simp)
      · subst hpr
        have hfresh := registerGPlace_fresh db pid place assetData s1 c1 hf0
          hmap hid
        have hcount0 := countByExternalId_zero_of_find_none db pid hf0
        have hc : countByExternalId
            (registerGPlace db pid (.ok (some place)) s1 c1).2 pid = 1 := by
          rw [hfresh.1, hcount0]
        obtain ⟨stored, hstored⟩ := Option.isSome_iff_exists.mp hfresh.2
        have h2 := registerGPlace_found _ pid pr2 s2 c2 stored hstored
        rw [h2]
        exact ⟨hc, rfl, stored, hstored, rfl⟩
    · have h1 := registerGPlace_found db pid pr1 s1 c1 e hf0
      rw [h1]
      have hc : countByExternalId db pid = 1 :=
        Nat.le_antisymm (hu pid) (countByExternalId_pos_of_find_some db pid e
          hf0)
      have h2 := registerGPlace_found db pid pr2 s2 c2 e hf0
      rw [h2]
      exact ⟨hc, rfl, e, hf0, rfl⟩
  · intro db pid pr1 pr2 d1 t1 d2 t2 hu hcase
    rcases hf0 : findByPlaceId db pid with _ | e
    · rcases hcase with hsome | ⟨d, hfetch, hid⟩
      · rw [hf0] at hsome
        exact absurd hsome (by simp)
      · have hfresh := registerPlace_fresh db pid pr1 d d1 t1 hf0 hfetch hid
        have hcount0 := countByPlaceId_zero_of_find_none db pid hf0
        have hc : countByPlaceId (registerPlace db pid pr1 d1 t1).2 pid = 1 := by
          rw [hfresh.1, hcount0]
        obtain ⟨stored, hstored⟩ := Option.isSome_iff_exists.mp hfresh.2
        have h2 := registerPlace_found _ pid pr2 d2 t2 stored hstored
        rw [h2]
        exact ⟨hc, rfl, stored, hstored, rfl⟩
    · have h1 := registerPlace_found db pid pr1 d1 t1 e hf0
      rw [h1]
      have hc : countByPlaceId db pid = 1 :=
        Nat.le_antisymm (hu pid) (countByPlaceId_pos_of_find_some db pid e hf0)
      have h2 := registerPlace_found db pid pr2 d2 t2 e hf0
      rw [h2]
      exact ⟨hc, rfl, e, hf0, rfl⟩

/-- A concrete new-API record with external id `p1` (for the registration
scenarios). -/
def c2Place : GooglePlaceNew :=
  { c7Place with id := some "p1", priceLevel := none }

/-- C2 witness: on concrete runs of both route variants, registering the same
id twice leaves exactly one persisted record and leaves the store untouched,
even when every outbound call of the second run fails. -/
theorem C2_registration_idempotent_witness :
    countByExternalId (registerGPlace AssetDb.empty "p1"
      (.ok (some c2Place)) (.ok (some "nice")) (.ok (some "Cultural"))).2
      "p1" = 1 ∧
    (registerGPlace (registerGPlace AssetDb.empty "p1" (.ok (some c2Place))
      (.ok (some "nice")) (.ok (some "Cultural"))).2 "p1"
      (.error "provider down") (.error "ai down") (.error "ai down")).2 =
      (registerGPlace AssetDb.empty "p1" (.ok (some c2Place))
        (.ok (some "nice")) (.ok (some "Cultural"))).2 ∧
    countByPlaceId (registerPlace PlaceDb.empty "abc"
      (.ok c3ZeroWidthPlace) (.ok (some "d")) (.ok (some "a, b"))).2 "abc" =
      1 ∧
    (registerPlace (registerPlace PlaceDb.empty "abc" (.ok c3ZeroWidthPlace)
      (.ok (some "d")) (.ok (some "a, b"))).2 "abc" (.error "down")
      (.error "x") (.error "y")).2 =
      (registerPlace PlaceDb.empty "abc" (.ok c3ZeroWidthPlace)
        (.ok (some "d")) (.ok (some "a, b"))).2 := by
  have huA : UniqueExternalIds AssetDb.empty := by
    intro pid
    unfold countByExternalId AssetDb.empty
    simp
  have huP : UniquePlaceIds PlaceDb.empty := by
    intro pid
    unfold countByPlaceId PlaceDb.empty
    simp
  rcases hm : AssetMapper.mapGooglePlaceToAsset c2Place (some "") (some [])
      none (some ⟨⟩) with e | assetData
  · have hsome : (AssetMapper.mapGooglePlaceToAsset c2Place (some "")
        (some []) none (some ⟨⟩)).toOption.isSome = true := by rfl
    rw [hm] at hsome
    exact absurd hsome (by simp [Except.toOption])
  · have hA := C2_registration_idempotent.1 AssetDb.empty "p1"
      (.ok (some c2Place)) (.error "provider down") (.ok (some "nice"))
      (.ok (some "Cultural")) (.error "ai down") (.error "ai down") huA
      (Or.inr ⟨c2Place, assetData, rfl, rfl, hm⟩)
    have hP := C2_registration_idempotent.2 PlaceDb.empty "abc"
      (.ok c3ZeroWidthPlace) (.error "down") (.ok (some "d"))
      (.ok (some "a, b")) (.error "x") (.error "y") huP
      (Or.inr ⟨{ placeId := "abc", name := "Cafe X", formattedAddress := ""
                 location := { lat := 1, lng := 2 }
                 photos := [{ photoReference := "p1", height := 400
                              width := 0 }]
                 types := [], rating := none, userRatingsTotal := none },
        rfl, rfl⟩)
    exact ⟨hA.1, hA.2.1, hP.1, hP.2.1⟩

/-- C6 counterexample: in the gplace registration route a failing description
generation is not absorbed — the request answers 500 (even though the asset
was already persisted), contradicting "the registration request still
succeeds" for every generation failure. -/
theorem C6_counterexample_gplace_summary_failure :
    (registerGPlace AssetDb.empty "p1" (.ok (some c2Place))
      (.error "OpenAI API error") (.ok (some "Cultural"))).1 =
      .serverError := by
  rfl

/-- C6 amended: generation failures are non-critical only in the legacy place
route, which still answers 201 with the AI-less persisted document whenever
either generation call rejects. In the gplace route only classification
failures are absorbed (the category falls back to `"Default"` and the request
still succeeds), while a rejected summary generation surfaces as a 500
response — although the Asset has already been persisted (with the empty AI
description the mapper was given and no category). -/
theorem C6_generation_failure_policy :
    (∀ (db : PlaceDb) (pid : String) (pr : Except String GooglePlaceDetails)
        (d : IPlaceData) (dresp tresp : Except String (Option String)),
      findByPlaceId db pid = none →
      GoogleMapsService.getEntity pid pr = .ok d →
      (dresp.isOk = false ∨ tresp.isOk = false) →
      registerPlace db pid pr dresp tresp =
        (.created { _id := db.nextId, data := d, aiDescription := none
                    aiTags := none },
         { places := db.places ++ [{ _id := db.nextId, data := d
                                     aiDescription := none, aiTags := none }]
           nextId := db.nextId + 1 })) ∧
    (∀ (db : AssetDb) (pid : String) (place : GooglePlaceNew)
        (assetData : AssetNew) (msg : String)
        (cresp : Except String (Option String)),
      findByExternalId db pid = none →
      AssetMapper.mapGooglePlaceToAsset place (some "") (some []) none
        (some ⟨⟩) = .ok assetData →
      registerGPlace db pid (.ok (some place)) (.error msg) cresp =
        (.serverError,
         { assets := db.assets ++ [{ _id := db.nextId, asset := assetData
                                     category := none }]
           nextId := db.nextId + 1 }) ∧
      assetData.aiDescription = some "") ∧
    (∀ (db : AssetDb) (pid : String) (place : GooglePlaceNew)
        (assetData : AssetNew) (c0 : Option String) (msg : String),
      findByExternalId db pid = none →
      AssetMapper.mapGooglePlaceToAsset place (some "") (some []) none
        (some ⟨⟩) = .ok assetData →
      (registerGPlace db pid (.ok (some place)) (.ok c0) (.error msg)).1 =
        .ok ((updateAssetAi (createAsset db assetData).2
          (createAsset db assetData).1._id (OpenAIService.responseText c0)
          "Default").1) ∧
      OpenAIService.classifyAssetCategory (.error msg) = "Default") := by
  refine ⟨?_, ?_, ?_⟩
  · intro db pid pr d dresp tresp hfind hfetch hfail
    rcases dresp with msg | c0 <;> rcases tresp with msg2 | c2 <;>
      simp only [registerPlace, hfind, hfetch,
        OpenAIService.generateDescription, OpenAIService.generateTags] <;>
      try rfl
    rcases hfail with h | h <;> simp [Except.isOk, Except.toBool] at h
  · intro db pid place assetData msg cresp hfind hmap
    constructor
    · simp only [registerGPlace, hfind, hmap,
        OpenAIService.generateDescription]
      rfl
    · obtain ⟨loc, photos, -, -, ha⟩ := mapGooglePlaceToAsset_ok place
        (some "") (some []) none (some ⟨⟩) assetData hmap
      subst ha
      rfl
  · intro db pid place assetData c0 msg hfind hmap
    constructor
    · simp only [registerGPlace, hfind, hmap,
        OpenAIService.generateDescription]
      rfl
    · rfl

/-- The `IPlaceData` that the legacy `getEntity` assembles from
`c3ZeroWidthPlace`. -/
def c6FetchedData : IPlaceData :=
  { placeId := "abc", name := "Cafe X", formattedAddress := ""
    location := { lat := 1, lng := 2 }
    photos := [{ photoReference := "p1", height := 400, width := 0 }]
    types := [], rating := none, userRatingsTotal := none }

/-- C6 witness: a concrete legacy registration with a failing description call
still answers 201 with the persisted AI-less document, and a concrete gplace
registration with a failing classification call does not answer 500. -/
theorem C6_generation_failure_policy_witness :
    registerPlace PlaceDb.empty "abc" (.ok c3ZeroWidthPlace)
      (.error "AI down") (.ok (some "tags")) =
      (.created { _id := 0, data := c6FetchedData, aiDescription := none
                  aiTags := none },
       { places := [{ _id := 0, data := c6FetchedData, aiDescription := none
                      aiTags := none }]
         nextId := 1 }) ∧
    (registerGPlace AssetDb.empty "p1" (.ok (some c2Place))
      (.ok (some "great")) (.error "classify down")).1 ≠ .serverError := by
  constructor
  · exact C6_generation_failure_policy.1 PlaceDb.empty "abc"
      (.ok c3ZeroWidthPlace) c6FetchedData (.error "AI down")
      (.ok (some "tags")) rfl rfl (Or.inl rfl)
  · rcases hm : AssetMapper.mapGooglePlaceToAsset c2Place (some "") (some [])
        none (some ⟨⟩) with e | assetData
    · have hsome : (AssetMapper.mapGooglePlaceToAsset c2Place (some "")
          (some []) none (some ⟨⟩)).toOption.isSome = true := by rfl
      rw [hm] at hsome
      exact absurd hsome (by simp [Except.toOption])
    · have hc := (C6_generation_failure_policy.2.2 AssetDb.empty "p1" c2Place
        assetData (some "great") "classify down" rfl hm).1
      rw [hc]
      simp

end LandingGen
